import Mathlib

/-!
Verification of the woke transaction-building core: a shallow embedding of
`src/woke/testing/core.py`, `src/woke/deployment/core.py` and
`src/woke/testing/json_rpc/communicator.py`, with theorems checking the
natural-language specification against the embedded code.

Python dictionaries keyed by strings are embedded as association lists,
`TypedDict`-shaped parameter dictionaries as structures of `Option` fields
(`none` = key absent), and exceptions as an explicit error type returned in
`Except`.  JSON-RPC round-trips are recorded in an explicit trace, with the
node's responses supplied by a `Node` record of response functions.
-/

/-! ## Association-list helpers (embedding of Python `dict` operations) -/
def listLookup {α : Type} : List (String × α) → String → Option α
  | [], _ => none
  | (k, v) :: rest, key => if key = k then some v else listLookup rest key

/-- `d[k] = v`: replace the binding if the key is present, else append. -/
def listInsert {α : Type} : List (String × α) → String → α → List (String × α)
  | [], key, v => [(key, v)]
  | (k, w) :: rest, key, v =>
      if key = k then (k, v) :: rest else (k, w) :: listInsert rest key v

/-- `del d[k]`: remove the binding for the key. -/
def listErase {α : Type} : List (String × α) → String → List (String × α)
  | [], _ => []
  | (k, w) :: rest, key => if key = k then rest else (k, w) :: listErase rest key

/-! ## Wire encoding — `JsonRpcCommunicator._encode_transaction`
(`src/woke/testing/json_rpc/communicator.py`, lines 82–109)

Python's `hex(n)` for a non-negative integer produces `"0x"` followed by the
lowercase hexadecimal digits of `n` with no leading zeros (`"0x0"` for zero);
`bytes.hex()` produces two lowercase hexadecimal digits per byte.  Transaction
quantities are non-negative, so integer fields are embedded as `Nat`. -/
/-- Lowercase hexadecimal digit character for a value `0 ≤ n < 16`
(`'0'`–`'9'` then `'a'`–`'f'`), as produced by Python's `hex`/`bytes.hex`. -/
def hexDigitChar (n : Nat) : Char :=
  if n < 10 then Char.ofNat (48 + n) else Char.ofNat (87 + n)

/-- The hexadecimal digit characters of `n`, most significant first;
empty for `n = 0`. -/
def natHexDigits : Nat → List Char
  | 0 => []
  | n + 1 => natHexDigits ((n + 1) / 16) ++ [hexDigitChar ((n + 1) % 16)]
decreasing_by exact Nat.div_lt_self (Nat.succ_pos n) (by omega)

/-- Characters of Python's `hex(n)` for non-negative `n`. -/
def pyHexChars (n : Nat) : List Char :=
  '0' :: 'x' :: (if n = 0 then ['0'] else natHexDigits n)

/-- Python's `hex(n)` for non-negative `n`. -/
def pyHex (n : Nat) : String :=
  String.mk (pyHexChars n)

/-- Characters of Python's `bytes.hex()`: two hexadecimal digits per byte. -/
def bytesHexChars (bs : List Nat) : List Char :=
  bs.flatMap fun b => [hexDigitChar (b / 16), hexDigitChar (b % 16)]

/-- `"0x" + data.hex()` as in the encoder's `data` field. -/
def pyBytesHex (bs : List Nat) : String :=
  String.mk ('0' :: 'x' :: bytesHexChars bs)

def isLowerHexDigit (c : Char) : Bool :=
  (('0' ≤ c ∧ c ≤ '9') ∨ ('a' ≤ c ∧ c ≤ 'f') : Prop)

/-- A `0x`-prefixed, non-empty, lowercase hexadecimal string with no
zero-padding: either exactly `"0x0"` or a leading digit different from `'0'`. -/
def hexNoPad (s : String) : Prop :=
  ∃ body : List Char,
    s = String.mk ('0' :: 'x' :: body) ∧
    body ≠ [] ∧
    (∀ c ∈ body, isLowerHexDigit c) ∧
    (body = ['0'] ∨ body.head? ≠ some '0')

/-! ### The wire transaction dictionary and `_encode_transaction`

`TxParams` of `src/woke/testing/json_rpc/communicator.py` (lines 23–40): a
`TypedDict` with `total=False`, embedded as a structure of `Option` fields
(`none` = key absent).  Access lists are JSON values copied through verbatim;
they are embedded as lists of (address, storage keys) pairs. -/
inductive WireVal where
  | str (s : String)
  | list (l : List (String × List String))

deriving DecidableEq

structure WireTx where
  type : Option Nat := none
  nonce : Option Nat := none
  toAddr : Option String := none
  fromAddr : Option String := none
  gas : Option Nat := none
  value : Option Nat := none
  data : Option (List Nat) := none
  gas_price : Option Nat := none
  max_priority_fee_per_gas : Option Nat := none
  max_fee_per_gas : Option Nat := none
  access_list : Option (List (String × List String)) := none
  chain_id : Option Nat := none

deriving DecidableEq

/-- One `if key in transaction: tx[out] = f(transaction[key])` step of the
encoder: a singleton binding when the field is present, nothing otherwise. -/
def optField {α : Type} (k : String) (v : Option α) (f : α → WireVal) :
    List (String × WireVal) :=
  match v with
  | none => []
  | some x => [(k, f x)]

/-- `JsonRpcCommunicator._encode_transaction`
(`src/woke/testing/json_rpc/communicator.py`, lines 82–109): builds the JSON
transaction object field by field, hex-encoding the integer quantities with
Python's `hex`, hex-encoding `data` with a `0x` prefix, copying `to`/`from`
and the access list verbatim, and omitting absent keys entirely. -/
def encodeTransaction (t : WireTx) : List (String × WireVal) :=
  optField "type" t.type (fun n => .str (pyHex n)) ++
  optField "nonce" t.nonce (fun n => .str (pyHex n)) ++
  optField "to" t.toAddr (fun s => .str s) ++
  optField "from" t.fromAddr (fun s => .str s) ++
  optField "gas" t.gas (fun n => .str (pyHex n)) ++
  optField "value" t.value (fun n => .str (pyHex n)) ++
  optField "data" t.data (fun bs => .str (pyBytesHex bs)) ++
  optField "gasPrice" t.gas_price (fun n => .str (pyHex n)) ++
  optField "maxPriorityFeePerGas" t.max_priority_fee_per_gas
    (fun n => .str (pyHex n)) ++
  optField "maxFeePerGas" t.max_fee_per_gas (fun n => .str (pyHex n)) ++
  optField "accessList" t.access_list (fun l => .list l) ++
  optField "chainId" t.chain_id (fun n => .str (pyHex n))

/-! ## The development-layer transaction model

`TxParams` as used by `Chain._build_transaction` in `src/woke/testing/core.py`
and `src/woke/deployment/core.py` (imported from `woke.development.json_rpc`):
a dictionary of optional camel-case keys.  `gas` may hold an integer or a
string (the code tests `isinstance(..., int)` and `== "auto"`); `accessList`
may hold a literal list or a string. -/
inductive GasParam where
  | int (n : Nat)
  | str (s : String)

deriving DecidableEq

/-- One access-list entry: an address and its storage keys. -/
abbrev AccessEntry := String × List String

inductive AccessListParam where
  | items (l : List AccessEntry)
  | str (s : String)

deriving DecidableEq

structure TxParams where
  type : Option Nat := none
  nonce : Option Nat := none
  toAddr : Option String := none
  fromAddr : Option String := none
  gas : Option GasParam := none
  value : Option Nat := none
  data : Option (List Nat) := none
  gasPrice : Option Nat := none
  maxPriorityFeePerGas : Option Nat := none
  maxFeePerGas : Option Nat := none
  accessList : Option AccessListParam := none
  chainId : Option Nat := none

deriving DecidableEq

/-- The transaction dictionary `tx` built by `_build_transaction`: `nonce`,
`from`, `value` and `data` are always set; the remaining keys are set
depending on the transaction type and request.  In the deployment chain the
`accessList` value from the request is copied verbatim, so the field holds an
`AccessListParam` (which may be a string). -/
structure Tx where
  nonce : Nat
  fromAddr : String
  value : Nat
  data : List Nat
  type : Option Nat := none
  toAddr : Option String := none
  gasPrice : Option Nat := none
  accessList : Option AccessListParam := none
  chainId : Option Nat := none
  maxPriorityFeePerGas : Option Nat := none
  maxFeePerGas : Option Nat := none
  gas : Option Nat := none

deriving DecidableEq

/-- `RequestType` of `woke.development.core`: the request kinds distinguished
by `_build_transaction`'s default-sender selection. -/
inductive RequestType where
  | call
  | tx
  | estimate
  | accessList

deriving DecidableEq

/-- Python exceptions raised by the embedded code: `ValueError` with its
message, `JsonRpcError` from a node round-trip (re-raised after
`_process_call_revert`), `RevertToSnapshotFailedError`, and `KeyError` from a
missing dictionary key. -/
inductive Err where
  | valueError (msg : String)
  | jsonRpcError
  | revertToSnapshotFailed
  | keyError

deriving DecidableEq

/-- A JSON-RPC round-trip performed against the node, as recorded in a build
trace. -/
inductive RpcCall where
  | getTransactionCount (addr : String)
  | getBlockPending
  | getGasPrice
  | getMaxPriorityFeePerGas
  | estimateGas (tx : Tx)
  | createAccessList (tx : Tx)

deriving DecidableEq

/-- The node's responses to the round-trips a build may perform.  `none` from
`estimateGas`/`createAccessList` models a `JsonRpcError` response; a
successful `createAccessList` response carries the `accessList` and the
`gasUsed` quantity (already parsed from hex, as `int(response["gasUsed"], 16)`
does). -/
structure Node where
  getTransactionCount : String → Nat
  estimateGas : Tx → Option Nat
  createAccessList : Tx → Option (List AccessEntry × Nat)
  pendingBaseFeePerGas : Nat
  gasPriceRpc : Nat
  maxPriorityFeePerGasRpc : Nat

namespace Testing

/-- The dictionary stored by `Chain.snapshot` in `src/woke/testing/core.py`
(lines 85–93).  The contents of the account/transaction/block registries are
opaque to the claims; they are embedded as association lists of numbers. -/
structure SnapshotData where
  nonces : List (String × Nat)
  accounts : List (String × Nat)
  default_call_account : Option String
  default_tx_account : Option String
  block_gas_limit : Nat
  txs : List (String × Nat)
  blocks : List (Nat × Nat)

deriving DecidableEq

/-- The testing `Chain`'s session state (`src/woke/testing/core.py` together
with the attributes of its `woke.development.core.Chain` base that the
embedded methods read): default transaction type `_tx_type`, `_chain_id`,
`_require_signed_txs` (set to `False` by `_connect_setup`), the cached
`_gas_price`, `_max_priority_fee_per_gas` and `_block_gas_limit`, the lazily
populated nonce cache `_nonces`, the account registry, the per-request-kind
default accounts, the snapshot store, and the transaction/block registries. -/
structure Chain where
  txType : Nat
  chainId : Nat
  requireSignedTxs : Bool
  gasPrice : Nat
  maxPriorityFeePerGas : Nat
  blockGasLimit : Nat
  nonces : List (String × Nat)
  accounts : List (String × Nat)
  defaultCallAccount : Option String
  defaultTxAccount : Option String
  defaultEstimateAccount : Option String
  defaultAccessListAccount : Option String
  snapshots : List (String × SnapshotData)
  txs : List (String × Nat)
  blocks : List (Nat × Nat)

deriving DecidableEq

/-- `Chain.snapshot` (`src/woke/testing/core.py`, lines 82–94): asks the node
for a snapshot id (supplied here as `nodeSnapshotId`), stores copies of the
local caches under that id, and returns the id. -/
def Chain.snapshot (s : Chain) (nodeSnapshotId : String) : String × Chain :=
  (nodeSnapshotId,
   { s with
      snapshots := listInsert s.snapshots nodeSnapshotId
        { nonces := s.nonces
          accounts := s.accounts
          default_call_account := s.defaultCallAccount
          default_tx_account := s.defaultTxAccount
          block_gas_limit := s.blockGasLimit
          txs := s.txs
          blocks := s.blocks } })

/-- `Chain.revert` (`src/woke/testing/core.py`, lines 96–110): asks the node
to revert (outcome supplied as `nodeReverted`); on node failure raises
`RevertToSnapshotFailedError` with no local mutation; on success looks up the
stored entry (`KeyError` if absent), restores every stored cache, and deletes
the entry. -/
def Chain.revert (s : Chain) (snapshotId : String) (nodeReverted : Bool) :
    Chain × Except Err Unit :=
  if ¬ nodeReverted then (s, .error .revertToSnapshotFailed)
  else
    match listLookup s.snapshots snapshotId with
    | none => (s, .error .keyError)
    | some snap =>
        ({ s with
            nonces := snap.nonces
            accounts := snap.accounts
            defaultCallAccount := snap.default_call_account
            defaultTxAccount := snap.default_tx_account
            blockGasLimit := snap.block_gas_limit
            txs := snap.txs
            blocks := snap.blocks
            snapshots := listErase s.snapshots snapshotId },
         .ok ())

/-- `Chain._update_nonce` (`src/woke/testing/core.py`, lines 78–79): writes
through to the nonce cache. -/
def Chain.updateNonce (s : Chain) (address : String) (nonce : Nat) : Chain :=
  { s with nonces := listInsert s.nonces address nonce }

/-- Sender resolution of `Chain._build_transaction`
(`src/woke/testing/core.py`, lines 171–190): the explicit `from` wins,
otherwise the default account registered for the request kind; missing both
raises `ValueError`. -/
def Chain.resolveSender (s : Chain) (requestType : RequestType)
    (params : TxParams) : Except Err String :=
  match params.fromAddr with
  | some sender => .ok sender
  | none =>
      match requestType with
      | .call =>
          match s.defaultCallAccount with
          | some a => .ok a
          | none =>
              .error (.valueError "No from_ account specified and no default account set")
      | .tx =>
          match s.defaultTxAccount with
          | some a => .ok a
          | none =>
              .error (.valueError "No from_ account specified and no default account set")
      | .estimate =>
          match s.defaultEstimateAccount with
          | some a => .ok a
          | none =>
              .error (.valueError "No from_ account specified and no default account set")
      | .accessList =>
          match s.defaultAccessListAccount with
          | some a => .ok a
          | none =>
              .error (.valueError "No from_ account specified and no default account set")

/-- The access-list assignment shared by the type-1 and type-2 branches
(`src/woke/testing/core.py`, lines 222–225 and 231–234): an absent request
field becomes `[]`, a literal value is copied, and the literal `"auto"` leaves
the field unset for the later round-trip. -/
def accessListPre (t : Tx) (params : TxParams) : Tx :=
  match params.accessList with
  | none => { t with accessList := some (.items []) }
  | some v => if v ≠ .str "auto" then { t with accessList := some v } else t

deriving instance DecidableEq for Except

/-- The outcome of a testing-chain build: the result (or raised error), the
nonce cache after the build, the caller's `params` dictionary after the
build's in-place mutation, and the ordered node round-trips performed. -/
structure BuildOut where
  result : Except Err Tx
  nonces : List (String × Nat)
  params : TxParams
  trace : List RpcCall

deriving DecidableEq

/-- The nonce acquisition `self._nonces[sender]` of the testing build
(`src/woke/testing/core.py`, line 206): the nonce cache is the
`KeyedDefaultDict` installed by `_connect_setup` (lines 57–61), which queries
`get_transaction_count` and caches the answer on the first use of an address.
Returns the nonce, the cache afterwards, and the round-trips performed. -/
def Chain.nonceOf (s : Chain) (node : Node) (sender : String) :
    Nat × List (String × Nat) × List RpcCall :=
  match listLookup s.nonces sender with
  | some n => (n, s.nonces, [])
  | none =>
      let n := node.getTransactionCount sender
      (n, listInsert s.nonces sender n, [RpcCall.getTransactionCount sender])

/-- The initial `tx` dictionary of the testing build
(`src/woke/testing/core.py`, lines 205–215). -/
def Chain.baseTx (s : Chain) (params : TxParams) (sender : String) (nonce : Nat)
    (dataBytes : List Nat) : Tx :=
  { nonce := nonce
    fromAddr := sender
    value := params.value.getD 0
    data := dataBytes
    type := if params.type.getD s.txType ≠ 0 then some (params.type.getD s.txType)
            else none
    toAddr := params.toAddr }

/-- The per-type fee section of the testing build
(`src/woke/testing/core.py`, lines 217–247). -/
def Chain.feeStep (s : Chain) (node : Node) (params : TxParams) (tx0 : Tx) :
    Tx × List RpcCall :=
  if params.type.getD s.txType = 0 then
    ({ tx0 with gasPrice := some (params.gasPrice.getD s.gasPrice) }, [])
  else if params.type.getD s.txType = 1 then
    (accessListPre
       { tx0 with
          chainId := some s.chainId
          gasPrice := some (params.gasPrice.getD s.gasPrice) } params, [])
  else
    match params.maxFeePerGas with
    | some v =>
        ({ accessListPre { tx0 with chainId := some s.chainId } params with
            maxPriorityFeePerGas :=
              some (params.maxPriorityFeePerGas.getD s.maxPriorityFeePerGas)
            maxFeePerGas := some v }, [])
    | none =>
        if s.requireSignedTxs then
          ({ accessListPre { tx0 with chainId := some s.chainId } params with
              maxPriorityFeePerGas :=
                some (params.maxPriorityFeePerGas.getD s.maxPriorityFeePerGas)
              maxFeePerGas :=
                some (params.maxPriorityFeePerGas.getD s.maxPriorityFeePerGas +
                  node.pendingBaseFeePerGas) },
           [RpcCall.getBlockPending])
        else
          ({ accessListPre { tx0 with chainId := some s.chainId } params with
              maxPriorityFeePerGas :=
                some (params.maxPriorityFeePerGas.getD s.maxPriorityFeePerGas) }, [])

/-- The gas section of the testing build
(`src/woke/testing/core.py`, lines 249–262): unset gas defaults to the cached
block gas limit with no round-trip, an integer is verbatim, `"auto"` is an
estimation round-trip, anything else raises `ValueError`. -/
def Chain.gasStep (s : Chain) (node : Node) (params : TxParams) (tx1 : Tx) :
    Except Err Tx × List RpcCall :=
  match params.gas with
  | none => (.ok { tx1 with gas := some s.blockGasLimit }, [])
  | some (.int n) => (.ok { tx1 with gas := some n }, [])
  | some (.str g) =>
      if g = "auto" then
        match node.estimateGas tx1 with
        | some n => (.ok { tx1 with gas := some n }, [RpcCall.estimateGas tx1])
        | none => (.error .jsonRpcError, [RpcCall.estimateGas tx1])
      else (.error (.valueError ("Invalid gas value: " ++ g)), [])

/-- The access-list round-trip of the testing build
(`src/woke/testing/core.py`, lines 264–277): only when the type is 1 or 2 and
the request said `accessList: "auto"`, call `create_access_list` on the
otherwise-fully-built transaction; its response sets `accessList`, and if the
request also said `gas: "auto"` the response's `gasUsed` overrides the gas. -/
def Chain.accessStep (s : Chain) (node : Node) (params : TxParams)
    (gasOut : Except Err Tx × List RpcCall) : Except Err Tx × List RpcCall :=
  match gasOut.1 with
  | .error e => (.error e, gasOut.2)
  | .ok tx2 =>
      if (params.type.getD s.txType = 1 ∨ params.type.getD s.txType = 2) ∧
          params.accessList = some (.str "auto") then
        match node.createAccessList tx2 with
        | none => (.error .jsonRpcError, gasOut.2 ++ [RpcCall.createAccessList tx2])
        | some (al, gasUsed) =>
            (.ok (if params.gas = some (.str "auto") then
                    { tx2 with accessList := some (.items al), gas := some gasUsed }
                  else { tx2 with accessList := some (.items al) }),
             gasOut.2 ++ [RpcCall.createAccessList tx2])
      else (.ok tx2, gasOut.2)

/-- `Chain._build_transaction` (`src/woke/testing/core.py`, lines 143–279),
assembled from the stages above.  `tx_type` is `params.get("type",
self._tx_type)` (line 150), inlined at each use.  The ABI-encoding
collaborators (`Abi.encode`, `_convert_to_web3_type`, `fix_library_abi`) are
consumed as a black box: `encodedArgs` is the byte string they produce for
the given arguments (the encoding of zero arguments when no ABI is
supplied). -/
def Chain.buildTransaction (s : Chain) (node : Node) (requestType : RequestType)
    (params : TxParams) (encodedArgs : List Nat) : BuildOut :=
  if ¬ (params.type.getD s.txType = 0 ∨ params.type.getD s.txType = 1 ∨
      params.type.getD s.txType = 2) then
    ⟨.error (.valueError "Invalid transaction type"), s.nonces, params, []⟩
  else if params.type.getD s.txType = 0 ∧ (params.accessList.isSome ∨
      params.maxFeePerGas.isSome ∨ params.maxPriorityFeePerGas.isSome) then
    ⟨.error (.valueError
        "Cannot specify accessList, maxFeePerGas, or maxPriorityFeePerGas for type 0 transaction"),
     s.nonces, params, []⟩
  else if params.type.getD s.txType = 1 ∧ (params.maxFeePerGas.isSome ∨
      params.maxPriorityFeePerGas.isSome) then
    ⟨.error (.valueError
        "Cannot specify maxFeePerGas or maxPriorityFeePerGas for type 1 transaction"),
     s.nonces, params, []⟩
  else if params.type.getD s.txType = 2 ∧ params.gasPrice.isSome then
    ⟨.error (.valueError "Cannot specify gasPrice for type 2 transaction"),
     s.nonces, params, []⟩
  else
    match s.resolveSender requestType params with
    | .error e => ⟨.error e, s.nonces, params, []⟩
    | .ok sender =>
        let ns := s.nonceOf node sender
        let fs := s.feeStep node params
          (s.baseTx params sender ns.1 (params.data.getD [] ++ encodedArgs))
        let fin := s.accessStep node params (s.gasStep node params fs.1)
        ⟨fin.1, ns.2.1, { params with data := some (params.data.getD [] ++ encodedArgs) },
         ns.2.2 ++ fs.2 ++ fin.2⟩

end Testing

/-- Modelled from the spec: `Account.nonce` (class `Account` of
`woke.development.core`, not under `src/`), used by the deployment build as
`Account(sender, self).nonce`.  Per the spec, in a locally-signing session
"the nonce is instead always freshly queried from the node at build time (no
local cache)". -/
def accountNonce (node : Node) (address : String) : Nat :=
  node.getTransactionCount address

namespace Deployment

/-- The dictionary stored by `Chain.snapshot` in `src/woke/deployment/core.py`
(lines 59–69): no nonce cache and no block-gas-limit entry, unlike the testing
chain. -/
structure SnapshotData where
  accounts : List (String × Nat)
  default_call_account : Option String
  default_tx_account : Option String
  txs : List (String × Nat)
  blocks : List (Nat × Nat)

deriving DecidableEq

/-- The deployment `Chain`'s session state (`src/woke/deployment/core.py`):
`_require_signed_txs` is set to `True` by `_connect_setup`; there is no local
nonce cache and no cached gas price — those are read from the node. -/
structure Chain where
  txType : Nat
  chainId : Nat
  requireSignedTxs : Bool
  accounts : List (String × Nat)
  defaultCallAccount : Option String
  defaultTxAccount : Option String
  snapshots : List (String × SnapshotData)
  txs : List (String × Nat)
  blocks : List (Nat × Nat)

deriving DecidableEq

/-- `Chain.snapshot` (`src/woke/deployment/core.py`, lines 58–69). -/
def Chain.snapshot (s : Chain) (nodeSnapshotId : String) : String × Chain :=
  (nodeSnapshotId,
   { s with
      snapshots := listInsert s.snapshots nodeSnapshotId
        { accounts := s.accounts
          default_call_account := s.defaultCallAccount
          default_tx_account := s.defaultTxAccount
          txs := s.txs
          blocks := s.blocks } })

/-- `Chain.revert` (`src/woke/deployment/core.py`, lines 71–83). -/
def Chain.revert (s : Chain) (snapshotId : String) (nodeReverted : Bool) :
    Chain × Except Err Unit :=
  if ¬ nodeReverted then (s, .error .revertToSnapshotFailed)
  else
    match listLookup s.snapshots snapshotId with
    | none => (s, .error .keyError)
    | some snap =>
        ({ s with
            accounts := snap.accounts
            defaultCallAccount := snap.default_call_account
            defaultTxAccount := snap.default_tx_account
            txs := snap.txs
            blocks := snap.blocks
            snapshots := listErase s.snapshots snapshotId },
         .ok ())

/-- `Chain._update_nonce` (`src/woke/deployment/core.py`, lines 54–56):
"nothing to do". -/
def Chain.updateNonce (s : Chain) (_address : String) (_nonce : Nat) : Chain :=
  s

/-- Transaction-type inference of the deployment
`Chain._build_transaction` (`src/woke/deployment/core.py`, lines 134–141):
first-match over the supplied fee/access-list fields, else the session
default. -/
def txTypeOf (params : TxParams) (sessionDefault : Nat) : Nat :=
  if params.maxFeePerGas.isSome ∨ params.maxPriorityFeePerGas.isSome then 2
  else if params.accessList.isSome then 1
  else if params.gasPrice.isSome then 0
  else sessionDefault

/-- Sender resolution of the deployment `Chain._build_transaction`
(`src/woke/deployment/core.py`, lines 143–153): only the `call` and `tx`
request kinds have default accounts here. -/
def Chain.resolveSender (s : Chain) (requestType : RequestType)
    (params : TxParams) : Except Err String :=
  match params.fromAddr with
  | some sender => .ok sender
  | none =>
      match requestType with
      | .call =>
          match s.defaultCallAccount with
          | some a => .ok a
          | none =>
              .error (.valueError "No from_ account specified and no default account set")
      | .tx =>
          match s.defaultTxAccount with
          | some a => .ok a
          | none =>
              .error (.valueError "No from_ account specified and no default account set")
      | _ =>
          .error (.valueError "No from_ account specified and no default account set")

/-- The outcome of a deployment-chain build: result, mutated `params`, and
the ordered node round-trips. -/
structure BuildOut where
  result : Except Err Tx
  params : TxParams
  trace : List RpcCall

deriving DecidableEq

/-- The initial `tx` dictionary of the deployment build
(`src/woke/deployment/core.py`, lines 168–178); the nonce is
`Account(sender, self).nonce` (see `accountNonce`) and the type is the
first-match inferred `txTypeOf`. -/
def Chain.baseTx (s : Chain) (node : Node) (params : TxParams) (sender : String)
    (dataBytes : List Nat) : Tx :=
  { nonce := accountNonce node sender
    fromAddr := sender
    value := params.value.getD 0
    data := dataBytes
    type := if txTypeOf params s.txType ≠ 0 then some (txTypeOf params s.txType)
            else none
    toAddr := params.toAddr }

/-- The per-type fee section of the deployment build
(`src/woke/deployment/core.py`, lines 180–204): the access-list value from
the request is copied verbatim (`"auto"` included), and the gas-price /
max-priority-fee defaults are node queries through the class's properties
(lines 97–112). -/
def Chain.feeStep (s : Chain) (node : Node) (params : TxParams) (tx0 : Tx) :
    Tx × List RpcCall :=
  if txTypeOf params s.txType = 0 then
    match params.gasPrice with
    | some g => ({ tx0 with gasPrice := some g }, [])
    | none => ({ tx0 with gasPrice := some node.gasPriceRpc }, [RpcCall.getGasPrice])
  else if txTypeOf params s.txType = 1 then
    match params.gasPrice with
    | some g =>
        ({ tx0 with
            accessList := some (params.accessList.getD (.items []))
            chainId := some s.chainId
            gasPrice := some g }, [])
    | none =>
        ({ tx0 with
            accessList := some (params.accessList.getD (.items []))
            chainId := some s.chainId
            gasPrice := some node.gasPriceRpc }, [RpcCall.getGasPrice])
  else
    match params.maxPriorityFeePerGas with
    | some v =>
        (match params.maxFeePerGas with
         | some w =>
             ({ tx0 with
                 accessList := some (params.accessList.getD (.items []))
                 chainId := some s.chainId
                 maxPriorityFeePerGas := some v
                 maxFeePerGas := some w }, [])
         | none =>
             if s.requireSignedTxs then
               ({ tx0 with
                   accessList := some (params.accessList.getD (.items []))
                   chainId := some s.chainId
                   maxPriorityFeePerGas := some v
                   maxFeePerGas := some (v + node.pendingBaseFeePerGas) },
                [RpcCall.getBlockPending])
             else
               ({ tx0 with
                   accessList := some (params.accessList.getD (.items []))
                   chainId := some s.chainId
                   maxPriorityFeePerGas := some v }, []))
    | none =>
        (match params.maxFeePerGas with
         | some w =>
             ({ tx0 with
                 accessList := some (params.accessList.getD (.items []))
                 chainId := some s.chainId
                 maxPriorityFeePerGas := some node.maxPriorityFeePerGasRpc
                 maxFeePerGas := some w }, [RpcCall.getMaxPriorityFeePerGas])
         | none =>
             if s.requireSignedTxs then
               ({ tx0 with
                   accessList := some (params.accessList.getD (.items []))
                   chainId := some s.chainId
                   maxPriorityFeePerGas := some node.maxPriorityFeePerGasRpc
                   maxFeePerGas := some (node.maxPriorityFeePerGasRpc +
                     node.pendingBaseFeePerGas) },
                [RpcCall.getMaxPriorityFeePerGas, RpcCall.getBlockPending])
             else
               ({ tx0 with
                   accessList := some (params.accessList.getD (.items []))
                   chainId := some s.chainId
                   maxPriorityFeePerGas := some node.maxPriorityFeePerGasRpc },
                [RpcCall.getMaxPriorityFeePerGas]))

/-- The gas section of the deployment build
(`src/woke/deployment/core.py`, lines 206–216): unset gas and `"auto"` both
take the estimation round-trip, an integer is verbatim, anything else raises
`ValueError`. -/
def Chain.gasStep (node : Node) (params : TxParams) (tx1 : Tx) :
    Except Err Tx × List RpcCall :=
  match params.gas with
  | none =>
      (match node.estimateGas tx1 with
       | some n => (.ok { tx1 with gas := some n }, [RpcCall.estimateGas tx1])
       | none => (.error .jsonRpcError, [RpcCall.estimateGas tx1]))
  | some (.str g) =>
      if g = "auto" then
        match node.estimateGas tx1 with
        | some n => (.ok { tx1 with gas := some n }, [RpcCall.estimateGas tx1])
        | none => (.error .jsonRpcError, [RpcCall.estimateGas tx1])
      else (.error (.valueError ("Invalid gas value: " ++ g)), [])
  | some (.int n) => (.ok { tx1 with gas := some n }, [])

/-- `Chain._build_transaction` (`src/woke/deployment/core.py`, lines 121–218),
assembled from the stages above.  There is no access-list round-trip in the
deployment build. -/
def Chain.buildTransaction (s : Chain) (node : Node) (requestType : RequestType)
    (params : TxParams) (encodedArgs : List Nat) : BuildOut :=
  if params.gasPrice.isSome ∧ (params.maxFeePerGas.isSome ∨
      params.maxPriorityFeePerGas.isSome) then
    ⟨.error (.valueError
        "Cannot specify both gas_price and max_fee_per_gas/max_priority_fee_per_gas"),
     params, []⟩
  else
    match s.resolveSender requestType params with
    | .error e => ⟨.error e, params, []⟩
    | .ok sender =>
        let fs := s.feeStep node params
          (s.baseTx node params sender (params.data.getD [] ++ encodedArgs))
        let gs := Chain.gasStep node params fs.1
        ⟨gs.1, { params with data := some (params.data.getD [] ++ encodedArgs) },
         [RpcCall.getTransactionCount sender] ++ fs.2 ++ gs.2⟩

end Deployment

/-! ## Confirmation waiting — `Chain._wait_for_transaction`
(`src/woke/testing/core.py`, lines 281–296)

The two busy-wait loops poll node-backed properties (`tx.status` and the
latest block number); each poll is indexed by a tick, and the loops are given
explicit fuel so that the embedding stays total.  The function returns the
tick at which it returned, or `none` if the fuel ran out while a loop
condition still held. -/
/-- The poll-indexed observations the waiter reads: whether the transaction's
status is still `PENDING` at a tick, the latest block number at a tick, and
the (fixed, once mined) block number of the transaction. -/
structure TxObs where
  statusPending : Nat → Bool
  latestNumber : Nat → Nat
  blockNumber : Nat

/-- `while ¬ p t: pass` starting at tick `start`: the first tick `≥ start`
satisfying `p`, bounded by `fuel`. -/
def busyWaitUntil (p : Nat → Bool) : Nat → Nat → Option Nat
  | _, 0 => none
  | start, fuel + 1 => if p start then some start else busyWaitUntil p (start + 1) fuel

/-- `Chain._wait_for_transaction` (`src/woke/testing/core.py`, lines
281–296): `confirmations == 0` returns at once; `None` becomes `1`; the first
loop spins while the status is `PENDING`; with `confirmations == 1` it then
returns; otherwise the second loop spins while
`latest block number - tx block number < confirmations - 1`. -/
def waitForTransaction (obs : TxObs) (confirmations : Option Int) (fuel : Nat) :
    Option Nat :=
  if confirmations = some 0 then some 0
  else
    match busyWaitUntil (fun t => ! obs.statusPending t) 0 fuel with
    | none => none
    | some t1 =>
        if confirmations.getD 1 = 1 then some t1
        else
          busyWaitUntil
            (fun t => decide (confirmations.getD 1 - 1 ≤
              (obs.latestNumber t : Int) - (obs.blockNumber : Int)))
            t1 fuel

/-- The transaction-type resolution rule as the specification states it
(§4.2, "first matching rule wins"): type 2 on any dynamic-fee field, else
type 1 on an access list, else type 0 on a gas price, else the session's
configured default type.  This is the spec-side definition, to be compared
with the resolution the embedded code performs. -/
def inferTypeSpec (params : TxParams) (sessionDefault : Nat) : Nat :=
  if params.maxFeePerGas.isSome ∨ params.maxPriorityFeePerGas.isSome then 2
  else if params.accessList.isSome then 1
  else if params.gasPrice.isSome then 0
  else sessionDefault

/-! ## Concrete fixtures for witnesses -/
def sampleSnapT : Testing.SnapshotData :=
  { nonces := [("0xa", 5)]
    accounts := [("0xa", 1)]
    default_call_account := some "0xa"
    default_tx_account := none
    block_gas_limit := 30000000
    txs := []
    blocks := [] }

def sampleChainT : Testing.Chain :=
  { txType := 0
    chainId := 1
    requireSignedTxs := false
    gasPrice := 7
    maxPriorityFeePerGas := 3
    blockGasLimit := 30000000
    nonces := [("0xa", 5)]
    accounts := [("0xa", 1)]
    defaultCallAccount := some "0xa"
    defaultTxAccount := some "0xb"
    defaultEstimateAccount := none
    defaultAccessListAccount := none
    snapshots := [("1", sampleSnapT)]
    txs := []
    blocks := [] }

def sampleSnapD : Deployment.SnapshotData :=
  { accounts := [("0xa", 1)]
    default_call_account := some "0xa"
    default_tx_account := none
    txs := []
    blocks := [] }

def sampleChainD : Deployment.Chain :=
  { txType := 0
    chainId := 5
    requireSignedTxs := true
    accounts := [("0xa", 1)]
    defaultCallAccount := some "0xa"
    defaultTxAccount := some "0xb"
    snapshots := [("1", sampleSnapD)]
    txs := []
    blocks := [] }

def sampleNode : Node :=
  { getTransactionCount := fun _ => 5
    estimateGas := fun _ => some 21000
    createAccessList := fun _ => some ([("0xc", ["0x1"])], 23000)
    pendingBaseFeePerGas := 10
    gasPriceRpc := 7
    maxPriorityFeePerGasRpc := 3 }

/-- Modelled from the spec: the submission path (in `woke.development.core`,
outside `src/`) advances the cached nonce after a successful submission —
"populated from the node once per address, thereafter advanced only by
successful submissions through this session" — by calling
`_update_nonce(sender, nonce + 1)` with the submitted transaction's nonce;
the testing `_update_nonce` (lines 78–79) writes through to the cache. -/
def afterSubmission (s : Testing.Chain) (sender : String) (usedNonce : Nat) :
    Testing.Chain :=
  s.updateNonce sender (usedNonce + 1)

/-- The transaction built by the testing chain fixture for an empty request:
nonce 5 freshly queried for `0xb`, legacy gas price 7, gas defaulted to the
block gas limit. -/
def sampleTx1 : Tx :=
  { nonce := 5, fromAddr := "0xb", value := 0, data := []
    gasPrice := some 7, gas := some 30000000 }

/-- The same build repeated against the updated nonce cache. -/
def sampleTx2 : Tx := sampleTx1

/-- The same build after a successful submission advanced the cache. -/
def sampleTx3 : Tx := { sampleTx1 with nonce := 6 }

/-- The transaction built by the deployment chain fixture for an empty
request: estimated gas 21000. -/
def sampleTxD : Tx :=
  { nonce := 5, fromAddr := "0xb", value := 0, data := []
    gasPrice := some 7, gas := some 21000 }

/-- A deployment chain fixture with no default accounts registered. -/
def emptyChainD : Deployment.Chain :=
  { sampleChainD with defaultCallAccount := none, defaultTxAccount := none }

/-- Testing-chain request: explicit type 1, `accessList: "auto"`,
`gas: "auto"`. -/
def pAutoT : TxParams :=
  { type := some 1, accessList := some (.str "auto"), gas := some (.str "auto") }

/-- Testing-chain request with a literal access list and integer gas. -/
def pLitT : TxParams :=
  { type := some 1, accessList := some (.items [("0xd", [])])
    gas := some (.int 50000) }

/-- Deployment-chain request with `accessList: "auto"`. -/
def pAutoD : TxParams := { accessList := some (.str "auto") }

/-- Testing build of `pAutoT`: access list and gas both from the
create-access-list response. -/
def sampleTxAuto : Tx :=
  { nonce := 5, fromAddr := "0xb", value := 0, data := []
    type := some 1, gasPrice := some 7
    accessList := some (.items [("0xc", ["0x1"])]), chainId := some 1
    gas := some 23000 }

/-- Testing build of `pLitT`: the literal access list passed through. -/
def sampleTxLit : Tx :=
  { nonce := 5, fromAddr := "0xb", value := 0, data := []
    type := some 1, gasPrice := some 7
    accessList := some (.items [("0xd", [])]), chainId := some 1
    gas := some 50000 }

/-- Deployment build of `pAutoD`: the literal string `"auto"` copied. -/
def sampleTxDAuto : Tx :=
  { nonce := 5, fromAddr := "0xb", value := 0, data := []
    type := some 1, gasPrice := some 7
    accessList := some (.str "auto"), chainId := some 5
    gas := some 21000 }

/-- Concrete waiter observations: pending until tick 2, latest block number
equal to the tick, transaction mined in block 3. -/
def sampleObs : TxObs :=
  { statusPending := fun t => decide (t < 2)
    latestNumber := fun t => t
    blockNumber := 3 }

/-! ## Theorems -/

theorem listLookup_insert {α : Type} (m : List (String × α)) (k : String) (v : α) :
    listLookup (listInsert m k v) k = some v := by
  induction m with
  | nil => simp [listInsert, listLookup]
  | cons hd tl ih =>
      obtain ⟨k', w⟩ := hd
      by_cases h : k = k' <;> simp [listInsert, listLookup, h, ih]

theorem listLookup_insert_ne {α : Type} (m : List (String × α)) (k k' : String) (v : α)
    (h : k' ≠ k) : listLookup (listInsert m k v) k' = listLookup m k' := by
  induction m with
  | nil => simp [listInsert, listLookup, h]
  | cons hd tl ih =>
      obtain ⟨k'', w⟩ := hd
      by_cases h1 : k = k'' <;> by_cases h2 : k' = k'' <;>
        simp_all [listInsert, listLookup]

theorem listLookup_not_mem {α : Type} (m : List (String × α)) (k : String)
    (h : k ∉ m.map Prod.fst) : listLookup m k = none := by
  induction m with
  | nil => simp [listLookup]
  | cons hd tl ih =>
      obtain ⟨k', w⟩ := hd
      simp only [List.map_cons, List.mem_cons] at h
      push_neg at h
      simp only [listLookup, if_neg h.1]
      exact ih h.2

theorem listLookup_erase {α : Type} (m : List (String × α)) (k : String)
    (hnodup : (m.map Prod.fst).Nodup) : listLookup (listErase m k) k = none := by
  induction m with
  | nil => simp [listErase, listLookup]
  | cons hd tl ih =>
      obtain ⟨k', w⟩ := hd
      simp only [List.map_cons, List.nodup_cons] at hnodup
      by_cases h : k = k'
      · subst h
        simp only [listErase, if_pos rfl]
        exact listLookup_not_mem tl _ hnodup.1
      · simp only [listErase, if_neg (fun hh : k = k' => h hh), listLookup, if_neg h]
        exact ih hnodup.2

theorem hexDigitChar_isLowerHexDigit (d : Nat) (h : d < 16) :
    isLowerHexDigit (hexDigitChar d) = true := by
  interval_cases d <;> decide

theorem hexDigitChar_ne_zero (d : Nat) (h : d < 16) (h0 : d ≠ 0) :
    hexDigitChar d ≠ '0' := by
  interval_cases d <;> simp_all <;> decide

theorem natHexDigits_ne_nil (n : Nat) (h : n ≠ 0) : natHexDigits n ≠ [] := by
  cases n with
  | zero => exact absurd rfl h
  | succ m => rw [natHexDigits]; simp

theorem natHexDigits_all_hex (n : Nat) :
    ∀ c ∈ natHexDigits n, isLowerHexDigit c = true := by
  induction n using Nat.strong_induction_on with
  | _ n ih =>
      cases n with
      | zero => simp [natHexDigits]
      | succ m =>
          rw [natHexDigits]
          intro c hc
          rcases List.mem_append.mp hc with h1 | h1
          · exact ih ((m + 1) / 16) (Nat.div_lt_self (Nat.succ_pos m) (by omega)) c h1
          · simp only [List.mem_singleton] at h1
            subst h1
            exact hexDigitChar_isLowerHexDigit _ (Nat.mod_lt _ (by omega))

theorem natHexDigits_head_ne_zero (n : Nat) (h : n ≠ 0) :
    (natHexDigits n).head? ≠ some '0' := by
  induction n using Nat.strong_induction_on with
  | _ n ih =>
      cases n with
      | zero => exact absurd rfl h
      | succ m =>
          rw [natHexDigits]
          by_cases hd : (m + 1) / 16 = 0
          · have hlt : m + 1 < 16 := by
              rcases Nat.lt_or_ge (m + 1) 16 with h1 | h1
              · exact h1
              · exact absurd hd (by have := Nat.div_le_div_right (c := 16) h1; omega)
            have hmod : (m + 1) % 16 = m + 1 := Nat.mod_eq_of_lt hlt
            rw [hd]
            simp only [natHexDigits, List.nil_append, List.head?, hmod]
            intro hcontra
            exact hexDigitChar_ne_zero (m + 1) hlt (by omega) (by injection hcontra)
          · have hne := natHexDigits_ne_nil _ hd
            rw [List.head?_append_of_ne_nil _ hne]
            exact ih ((m + 1) / 16) (Nat.div_lt_self (Nat.succ_pos m) (by omega)) hd

/-- Python's `hex` of a non-negative integer is `0x`-prefixed lowercase
hexadecimal with no zero-padding (`0x0` for zero). -/
theorem pyHex_hexNoPad (n : Nat) : hexNoPad (pyHex n) := by
  refine ⟨if n = 0 then ['0'] else natHexDigits n, rfl, ?_, ?_, ?_⟩
  · by_cases h : n = 0
    · simp [h]
    · simpa [if_neg h] using natHexDigits_ne_nil n h
  · by_cases h : n = 0
    · subst h
      intro c hc
      simp at hc
      subst hc; decide
    · simp only [if_neg h]
      exact natHexDigits_all_hex n
  · by_cases h : n = 0
    · exact Or.inl (by simp [h])
    · exact Or.inr (by simp only [if_neg h]; exact natHexDigits_head_ne_zero n h)

theorem listLookup_append {α : Type} (xs ys : List (String × α)) (k : String) :
    listLookup (xs ++ ys) k =
      ((listLookup xs k).elim (listLookup ys k) some) := by
  induction xs with
  | nil => simp [listLookup]
  | cons hd tl ih =>
      obtain ⟨k', v⟩ := hd
      by_cases h : k = k' <;> simp [listLookup, h, ih]

theorem listLookup_optField {α : Type} (k k' : String) (v : Option α)
    (f : α → WireVal) :
    listLookup (optField k' v f) k = if k = k' then v.map f else none := by
  cases v <;> by_cases h : k = k' <;> simp [optField, listLookup, h]

/-! ## C3 — snapshot/revert round-trip on the testing chain -/
/-- C3: for every testing-chain session state, taking a snapshot and then —
after arbitrary mutation of every cached component other than the snapshot
store — reverting to the returned id with the node reporting success restores
the nonce cache, account registry, default call/tx signers and block-gas-limit
to exactly their values at capture time. -/
theorem testing_snapshot_revert_restores
    (s s2 : Testing.Chain) (nodeId : String)
    (hsnap : s2.snapshots = ((Testing.Chain.snapshot s nodeId).2).snapshots) :
    ∃ s3 : Testing.Chain,
      Testing.Chain.revert s2 ((Testing.Chain.snapshot s nodeId).1) true = (s3, .ok ()) ∧
      s3.nonces = s.nonces ∧
      s3.accounts = s.accounts ∧
      s3.defaultCallAccount = s.defaultCallAccount ∧
      s3.defaultTxAccount = s.defaultTxAccount ∧
      s3.blockGasLimit = s.blockGasLimit := by
  have hid : (Testing.Chain.snapshot s nodeId).1 = nodeId := rfl
  have hlook : listLookup s2.snapshots nodeId =
      some { nonces := s.nonces
             accounts := s.accounts
             default_call_account := s.defaultCallAccount
             default_tx_account := s.defaultTxAccount
             block_gas_limit := s.blockGasLimit
             txs := s.txs
             blocks := s.blocks } := by
    rw [hsnap]
    exact listLookup_insert s.snapshots nodeId _
  rw [hid]
  unfold Testing.Chain.revert
  rw [if_neg (not_not_intro rfl), hlook]
  exact ⟨_, rfl, rfl, rfl, rfl, rfl, rfl⟩

theorem testing_snapshot_revert_restores_witness :
    ∃ s3 : Testing.Chain,
      Testing.Chain.revert
        { ((Testing.Chain.snapshot sampleChainT "2").2) with
            nonces := [("0xa", 99)]
            blockGasLimit := 1 }
        ((Testing.Chain.snapshot sampleChainT "2").1) true = (s3, .ok ()) ∧
      s3.nonces = sampleChainT.nonces ∧
      s3.accounts = sampleChainT.accounts ∧
      s3.defaultCallAccount = sampleChainT.defaultCallAccount ∧
      s3.defaultTxAccount = sampleChainT.defaultTxAccount ∧
      s3.blockGasLimit = sampleChainT.blockGasLimit :=
  testing_snapshot_revert_restores sampleChainT _ "2" rfl

/-! ## C4 — revert is atomic and one-shot -/
/-- C4: on both chains, `revert` with a node-reported failure raises
`RevertToSnapshotFailedError` and leaves the session state unchanged; with a
node-reported success it restores every stored cache component, deletes the
stored entry for the id, and any second revert with the same id fails. -/
theorem revert_atomic_oneshot :
    (∀ (s : Testing.Chain) (id : String),
       Testing.Chain.revert s id false = (s, .error .revertToSnapshotFailed)) ∧
    (∀ (s : Testing.Chain) (id : String) (snap : Testing.SnapshotData),
       listLookup s.snapshots id = some snap →
       (s.snapshots.map Prod.fst).Nodup →
       ∃ s', Testing.Chain.revert s id true = (s', .ok ()) ∧
         s'.nonces = snap.nonces ∧
         s'.accounts = snap.accounts ∧
         s'.defaultCallAccount = snap.default_call_account ∧
         s'.defaultTxAccount = snap.default_tx_account ∧
         s'.blockGasLimit = snap.block_gas_limit ∧
         s'.txs = snap.txs ∧
         s'.blocks = snap.blocks ∧
         listLookup s'.snapshots id = none ∧
         ∀ b : Bool, ∃ e : Err, (Testing.Chain.revert s' id b).2 = .error e) ∧
    (∀ (s : Deployment.Chain) (id : String),
       Deployment.Chain.revert s id false = (s, .error .revertToSnapshotFailed)) ∧
    (∀ (s : Deployment.Chain) (id : String) (snap : Deployment.SnapshotData),
       listLookup s.snapshots id = some snap →
       (s.snapshots.map Prod.fst).Nodup →
       ∃ s', Deployment.Chain.revert s id true = (s', .ok ()) ∧
         s'.accounts = snap.accounts ∧
         s'.defaultCallAccount = snap.default_call_account ∧
         s'.defaultTxAccount = snap.default_tx_account ∧
         s'.txs = snap.txs ∧
         s'.blocks = snap.blocks ∧
         listLookup s'.snapshots id = none ∧
         ∀ b : Bool, ∃ e : Err, (Deployment.Chain.revert s' id b).2 = .error e) := by
  refine ⟨fun s id => rfl, ?_, fun s id => rfl, ?_⟩
  · intro s id snap hlook hnodup
    have h2 : listLookup (listErase s.snapshots id) id = none :=
      listLookup_erase _ _ hnodup
    unfold Testing.Chain.revert
    rw [if_neg (not_not_intro rfl), hlook]
    refine ⟨_, rfl, rfl, rfl, rfl, rfl, rfl, rfl, rfl, h2, ?_⟩
    intro b
    cases b
    · exact ⟨.revertToSnapshotFailed, rfl⟩
    · refine ⟨.keyError, ?_⟩
      rw [if_neg (not_not_intro rfl)]
      simp [h2]
  · intro s id snap hlook hnodup
    have h2 : listLookup (listErase s.snapshots id) id = none :=
      listLookup_erase _ _ hnodup
    unfold Deployment.Chain.revert
    rw [if_neg (not_not_intro rfl), hlook]
    refine ⟨_, rfl, rfl, rfl, rfl, rfl, rfl, h2, ?_⟩
    intro b
    cases b
    · exact ⟨.revertToSnapshotFailed, rfl⟩
    · refine ⟨.keyError, ?_⟩
      rw [if_neg (not_not_intro rfl)]
      simp [h2]

theorem revert_atomic_oneshot_witness :
    (Testing.Chain.revert sampleChainT "1" true).2 = .ok () ∧
    (Deployment.Chain.revert sampleChainD "1" true).2 = .ok () := by
  obtain ⟨s', hT, -⟩ :=
    revert_atomic_oneshot.2.1 sampleChainT "1" sampleSnapT rfl (by decide)
  obtain ⟨d', hD, -⟩ :=
    revert_atomic_oneshot.2.2.2 sampleChainD "1" sampleSnapD rfl (by decide)
  exact ⟨by rw [hT], by rw [hD]⟩

/-! ## C2 — gasPrice together with dynamic-fee fields is rejected up front -/
/-- C2: a request carrying `gasPrice` together with `maxFeePerGas` or
`maxPriorityFeePerGas` makes `_build_transaction` raise `ValueError` on both
chains, before any node round-trip: the nonce cache and the `params`
dictionary are untouched and the trace is empty. -/
theorem feeConflict_rejected
    (params : TxParams)
    (hgp : params.gasPrice.isSome)
    (hfee : params.maxFeePerGas.isSome ∨ params.maxPriorityFeePerGas.isSome) :
    (∀ (s : Testing.Chain) (node : Node) (rt : RequestType) (args : List Nat),
       ∃ msg, Testing.Chain.buildTransaction s node rt params args =
         ⟨.error (.valueError msg), s.nonces, params, []⟩) ∧
    (∀ (s : Deployment.Chain) (node : Node) (rt : RequestType) (args : List Nat),
       Deployment.Chain.buildTransaction s node rt params args =
         ⟨.error (.valueError
            "Cannot specify both gas_price and max_fee_per_gas/max_priority_fee_per_gas"),
          params, []⟩) := by
  constructor
  · intro s node rt args
    unfold Testing.Chain.buildTransaction
    rcases ht : params.type.getD s.txType with _ | _ | _ | n
    · exact ⟨"Cannot specify accessList, maxFeePerGas, or maxPriorityFeePerGas for type 0 transaction",
        by rcases hfee with hf | hf <;> simp [ht, hf]⟩
    · exact ⟨"Cannot specify maxFeePerGas or maxPriorityFeePerGas for type 1 transaction",
        by rcases hfee with hf | hf <;> simp [ht, hf]⟩
    · exact ⟨"Cannot specify gasPrice for type 2 transaction", by simp [ht, hgp]⟩
    · exact ⟨"Invalid transaction type", by simp [ht]⟩
  · intro s node rt args
    unfold Deployment.Chain.buildTransaction
    rw [if_pos ⟨hgp, hfee⟩]

theorem feeConflict_rejected_witness :
    (∃ msg, Testing.Chain.buildTransaction sampleChainT sampleNode .tx
        { gasPrice := some 1, maxFeePerGas := some 2 } [] =
      ⟨.error (.valueError msg), sampleChainT.nonces,
       { gasPrice := some 1, maxFeePerGas := some 2 }, []⟩) ∧
    Deployment.Chain.buildTransaction sampleChainD sampleNode .tx
        { gasPrice := some 1, maxFeePerGas := some 2 } [] =
      ⟨.error (.valueError
          "Cannot specify both gas_price and max_fee_per_gas/max_priority_fee_per_gas"),
       { gasPrice := some 1, maxFeePerGas := some 2 }, []⟩ := by
  obtain ⟨h1, h2⟩ := feeConflict_rejected
    { gasPrice := some 1, maxFeePerGas := some 2 } rfl (Or.inl rfl)
  exact ⟨h1 sampleChainT sampleNode .tx [], h2 sampleChainD sampleNode .tx []⟩

/-! ## C1 — transaction-type resolution

The deployment chain resolves the type by first-match over the supplied
fields (`src/woke/deployment/core.py`, lines 134–141).  The testing chain
does not: it takes `params.get("type", self._tx_type)`
(`src/woke/testing/core.py`, line 150) and then validates the fee fields
against that type, so a request carrying only `maxPriorityFeePerGas` under a
default type of 0 is rejected instead of resolving to type 2. -/
/-- C1 counterexample: on the testing chain with default type 0, a request
with only `maxPriorityFeePerGas` set (no explicit `type`) does not resolve to
type 2 as the first-match rule demands — the build raises `ValueError`. -/
theorem typeInference_testing_cex :
    inferTypeSpec { maxPriorityFeePerGas := some 1 } sampleChainT.txType = 2 ∧
    Testing.Chain.buildTransaction sampleChainT sampleNode .tx
        { maxPriorityFeePerGas := some 1 } [] =
      ⟨.error (.valueError
          "Cannot specify accessList, maxFeePerGas, or maxPriorityFeePerGas for type 0 transaction"),
       sampleChainT.nonces, { maxPriorityFeePerGas := some 1 }, []⟩ := by
  exact ⟨rfl, rfl⟩

/-- C1 (amended): the first-match type resolution holds on the deployment
chain — its resolved type coincides with the spec's rule for every request and
session default.  The testing chain instead uses the explicit `type` field or
the session default and rejects conflicting fee fields: with no `type` field,
a default of 0 and a dynamic-fee field present, its build raises
`ValueError`. -/
theorem typeResolution_amended :
    (∀ (params : TxParams) (d : Nat),
       Deployment.txTypeOf params d = inferTypeSpec params d) ∧
    (∀ (s : Testing.Chain) (node : Node) (rt : RequestType) (args : List Nat)
       (params : TxParams),
       params.type = none → s.txType = 0 →
       params.maxPriorityFeePerGas.isSome →
       ∃ msg, (Testing.Chain.buildTransaction s node rt params args).result =
         .error (.valueError msg)) := by
  constructor
  · intro params d
    rfl
  · intro s node rt args params htype hdefault hmpf
    refine ⟨"Cannot specify accessList, maxFeePerGas, or maxPriorityFeePerGas for type 0 transaction", ?_⟩
    unfold Testing.Chain.buildTransaction
    simp [htype, hdefault, hmpf]

theorem typeResolution_amended_witness :
    Deployment.txTypeOf { maxPriorityFeePerGas := some 1 } 0 =
      inferTypeSpec { maxPriorityFeePerGas := some 1 } 0 ∧
    ∃ msg, (Testing.Chain.buildTransaction sampleChainT sampleNode .call
        { maxPriorityFeePerGas := some 1 } []).result = .error (.valueError msg) :=
  ⟨typeResolution_amended.1 { maxPriorityFeePerGas := some 1 } 0,
   typeResolution_amended.2 sampleChainT sampleNode .call []
     { maxPriorityFeePerGas := some 1 } rfl rfl rfl⟩

/-! ## C8 — wire format of `_encode_transaction` -/
theorem optionElim_id {α : Type} (x : Option α) : x.elim none some = x := by
  cases x <;> rfl

/-- C8: for every transaction dictionary, `_encode_transaction` emits each
present integer field (`type`, `nonce`, `gas`, `value`, `gasPrice`,
`maxPriorityFeePerGas`, `maxFeePerGas`, `chainId`) as Python's `hex` — a
`0x`-prefixed unpadded hexadecimal string (`0x0` for zero) — emits `data` as
`0x`-prefixed byte hex, copies `to`/`from`/`accessList` verbatim, emits no
other keys, and omits every absent input key from the output entirely. -/
theorem encodeTransaction_wire_format (t : WireTx) :
    listLookup (encodeTransaction t) "type" =
      t.type.map (fun n => .str (pyHex n)) ∧
    listLookup (encodeTransaction t) "nonce" =
      t.nonce.map (fun n => .str (pyHex n)) ∧
    listLookup (encodeTransaction t) "to" = t.toAddr.map (fun s => .str s) ∧
    listLookup (encodeTransaction t) "from" = t.fromAddr.map (fun s => .str s) ∧
    listLookup (encodeTransaction t) "gas" =
      t.gas.map (fun n => .str (pyHex n)) ∧
    listLookup (encodeTransaction t) "value" =
      t.value.map (fun n => .str (pyHex n)) ∧
    listLookup (encodeTransaction t) "data" =
      t.data.map (fun bs => .str (pyBytesHex bs)) ∧
    listLookup (encodeTransaction t) "gasPrice" =
      t.gas_price.map (fun n => .str (pyHex n)) ∧
    listLookup (encodeTransaction t) "maxPriorityFeePerGas" =
      t.max_priority_fee_per_gas.map (fun n => .str (pyHex n)) ∧
    listLookup (encodeTransaction t) "maxFeePerGas" =
      t.max_fee_per_gas.map (fun n => .str (pyHex n)) ∧
    listLookup (encodeTransaction t) "accessList" =
      t.access_list.map (fun l => .list l) ∧
    listLookup (encodeTransaction t) "chainId" =
      t.chain_id.map (fun n => .str (pyHex n)) ∧
    (∀ k : String, k ∉ ["type", "nonce", "to", "from", "gas", "value", "data",
        "gasPrice", "maxPriorityFeePerGas", "maxFeePerGas", "accessList",
        "chainId"] → listLookup (encodeTransaction t) k = none) ∧
    (∀ n : Nat, hexNoPad (pyHex n)) := by
  refine ⟨?_, ?_, ?_, ?_, ?_, ?_, ?_, ?_, ?_, ?_, ?_, ?_, ?_, fun n => pyHex_hexNoPad n⟩ <;>
    first
      | (intro k hk
         simp only [List.mem_cons, List.mem_singleton, not_or] at hk
         obtain ⟨h1, h2, h3, h4, h5, h6, h7, h8, h9, h10, h11, h12⟩ := hk
         simp [encodeTransaction, listLookup_append, listLookup_optField,
               h1, h2, h3, h4, h5, h6, h7, h8, h9, h10, h11, h12])
      | simp [encodeTransaction, listLookup_append, listLookup_optField, optionElim_id]

theorem encodeTransaction_wire_format_witness :
    listLookup (encodeTransaction { nonce := some 0 }) "foo" = none :=
  (encodeTransaction_wire_format
      { nonce := some 0 }).2.2.2.2.2.2.2.2.2.2.2.2.1 "foo" (by decide)

/-! ## C9 — confirmation waiting -/
theorem busyWaitUntil_spec (p : Nat → Bool) (start fuel t : Nat)
    (h : busyWaitUntil p start fuel = some t) :
    p t = true ∧ start ≤ t ∧ ∀ u, start ≤ u → u < t → p u = false := by
  induction fuel generalizing start with
  | zero => simp [busyWaitUntil] at h
  | succ f ih =>
      unfold busyWaitUntil at h
      by_cases hp : p start
      · rw [if_pos hp] at h
        cases h
        exact ⟨hp, le_refl _, fun u hu1 hu2 => absurd hu1 (by omega)⟩
      · rw [if_neg hp] at h
        obtain ⟨h1, h2, h3⟩ := ih (start + 1) h
        refine ⟨h1, by omega, fun u hu1 hu2 => ?_⟩
        rcases Nat.eq_or_lt_of_le hu1 with hu | hu
        · subst hu
          exact Bool.eq_false_iff.mpr hp
        · exact h3 u (by omega) hu2

/-- C9: `_wait_for_transaction` returns immediately (without consulting any
observation) when `confirmations = 0`; treats `None` exactly as `1`; with
`confirmations = 1` it returns at the first tick at which the status is no
longer pending; and with `confirmations > 1` it keeps waiting past the mining
tick until `latest block number - tx block number ≥ confirmations - 1`,
returning at the first such tick. -/
theorem waitForTransaction_spec :
    (∀ (obs : TxObs) (fuel : Nat),
       waitForTransaction obs (some 0) fuel = some 0) ∧
    (∀ (obs : TxObs) (fuel : Nat),
       waitForTransaction obs none fuel = waitForTransaction obs (some 1) fuel) ∧
    (∀ (obs : TxObs) (fuel t : Nat),
       waitForTransaction obs (some 1) fuel = some t →
       obs.statusPending t = false ∧ ∀ u, u < t → obs.statusPending u = true) ∧
    (∀ (obs : TxObs) (c : Int) (fuel t : Nat),
       1 < c →
       waitForTransaction obs (some c) fuel = some t →
       (c - 1 ≤ (obs.latestNumber t : Int) - (obs.blockNumber : Int)) ∧
       ∃ t1, t1 ≤ t ∧ obs.statusPending t1 = false ∧
         (∀ u, u < t1 → obs.statusPending u = true) ∧
         (∀ u, t1 ≤ u → u < t →
            (obs.latestNumber u : Int) - (obs.blockNumber : Int) < c - 1)) := by
  refine ⟨fun obs fuel => rfl, fun obs fuel => rfl, ?_, ?_⟩
  · intro obs fuel t h
    unfold waitForTransaction at h
    rw [if_neg (by simp)] at h
    rcases hb : busyWaitUntil (fun u => ! obs.statusPending u) 0 fuel with _ | t1
    · simp [hb] at h
    · simp only [hb, Option.getD_some, if_pos rfl] at h
      obtain ⟨h1, -, h3⟩ := busyWaitUntil_spec _ 0 fuel t1 hb
      have ht : t1 = t := Option.some.inj h
      subst ht
      exact ⟨by simpa using h1, fun u hu => by simpa using h3 u (Nat.zero_le u) hu⟩
  · intro obs c fuel t hc h
    unfold waitForTransaction at h
    rw [if_neg (by simp; omega)] at h
    rcases hb : busyWaitUntil (fun u => ! obs.statusPending u) 0 fuel with _ | t1
    · simp [hb] at h
    · simp only [hb, Option.getD_some] at h
      rw [if_neg (by omega)] at h
      obtain ⟨g1, g2, g3⟩ := busyWaitUntil_spec _ t1 fuel t h
      obtain ⟨h1, -, h3⟩ := busyWaitUntil_spec _ 0 fuel t1 hb
      refine ⟨by simpa using g1, t1, g2, by simpa using h1,
        fun u hu => by simpa using h3 u (Nat.zero_le u) hu,
        fun u hu1 hu2 => ?_⟩
      have h4 := g3 u hu1 hu2
      simp only [decide_eq_false_iff_not, not_le] at h4
      omega

/-! ## C10 — in-place mutation of the caller's `params` -/
set_option maxHeartbeats 1000000 in
theorem testing_build_params_frame (s : Testing.Chain) (node : Node)
    (rt : RequestType) (params : TxParams) (args : List Nat) :
    (∃ e, Testing.Chain.buildTransaction s node rt params args =
       ⟨.error e, s.nonces, params, []⟩) ∨
    (Testing.Chain.buildTransaction s node rt params args).params =
       { params with data := some (params.data.getD [] ++ args) } := by
  unfold Testing.Chain.buildTransaction
  repeat' split
  all_goals first
    | exact Or.inl ⟨_, rfl⟩
    | exact Or.inr rfl

set_option maxHeartbeats 1000000 in
theorem deployment_build_params_frame (s : Deployment.Chain) (node : Node)
    (rt : RequestType) (params : TxParams) (args : List Nat) :
    (∃ e, Deployment.Chain.buildTransaction s node rt params args =
       ⟨.error e, params, []⟩) ∨
    (Deployment.Chain.buildTransaction s node rt params args).params =
       { params with data := some (params.data.getD [] ++ args) } := by
  unfold Deployment.Chain.buildTransaction
  repeat' split
  all_goals first
    | exact Or.inl ⟨_, rfl⟩
    | exact Or.inr rfl

/-- C10: whenever `_build_transaction` returns normally, the caller's `params`
dictionary has been mutated in place: its `data` entry is the prior value
(the empty byte string when the key was absent) with the ABI-encoded argument
payload appended, and every other entry is unchanged.  Holds for both the
testing and the deployment chain. -/
theorem buildTransaction_mutates_params :
    (∀ (s : Testing.Chain) (node : Node) (rt : RequestType) (params : TxParams)
       (args : List Nat) (tx : Tx),
       (Testing.Chain.buildTransaction s node rt params args).result = .ok tx →
       (Testing.Chain.buildTransaction s node rt params args).params =
         { params with data := some (params.data.getD [] ++ args) }) ∧
    (∀ (s : Deployment.Chain) (node : Node) (rt : RequestType) (params : TxParams)
       (args : List Nat) (tx : Tx),
       (Deployment.Chain.buildTransaction s node rt params args).result = .ok tx →
       (Deployment.Chain.buildTransaction s node rt params args).params =
         { params with data := some (params.data.getD [] ++ args) }) := by
  constructor
  · intro s node rt params args tx h
    rcases testing_build_params_frame s node rt params args with ⟨e, he⟩ | hp
    · rw [he] at h; cases h
    · exact hp
  · intro s node rt params args tx h
    rcases deployment_build_params_frame s node rt params args with ⟨e, he⟩ | hp
    · rw [he] at h; cases h
    · exact hp

theorem buildTransaction_mutates_params_witness :
    (Testing.Chain.buildTransaction sampleChainT sampleNode .tx {} [1, 2]).params =
      { data := some [1, 2] } ∧
    (Deployment.Chain.buildTransaction sampleChainD sampleNode .tx {} [1, 2]).params =
      { data := some [1, 2] } :=
  ⟨by simpa using buildTransaction_mutates_params.1 sampleChainT sampleNode .tx {} [1, 2] _ rfl,
   by simpa using buildTransaction_mutates_params.2 sampleChainD sampleNode .tx {} [1, 2] _ rfl⟩

theorem deployment_resolveSender_error (s : Deployment.Chain) (rt : RequestType)
    (params : TxParams) (e : Err) (h : s.resolveSender rt params = .error e) :
    e = .valueError "No from_ account specified and no default account set" := by
  unfold Deployment.Chain.resolveSender at h
  repeat' split at h
  all_goals simp_all

theorem testing_resolveSender_error (s : Testing.Chain) (rt : RequestType)
    (params : TxParams) (e : Err) (h : s.resolveSender rt params = .error e) :
    e = .valueError "No from_ account specified and no default account set" := by
  unfold Testing.Chain.resolveSender at h
  repeat' split at h
  all_goals simp_all

/-- An error from the gas section passes through the access-list section
unchanged (the round-trip is skipped). -/
theorem testing_accessStep_error (s : Testing.Chain) (node : Node)
    (params : TxParams) (e : Err) (tr : List RpcCall) :
    (s.accessStep node params (.error e, tr)).1 = .error e := rfl

/-! ## Characterization of the build main path -/
/-- Every testing build is either an early `ValueError` exit (invalid or
conflicting type fields, or no sender) that touches nothing, or the main path
through `nonceOf`/`baseTx`/`feeStep`/`gasStep`/`accessStep`. -/
theorem testing_build_cases (s : Testing.Chain) (node : Node) (rt : RequestType)
    (params : TxParams) (args : List Nat) :
    (∃ msg, Testing.Chain.buildTransaction s node rt params args =
        ⟨.error (.valueError msg), s.nonces, params, []⟩) ∨
    (∃ sender, s.resolveSender rt params = .ok sender ∧
       Testing.Chain.buildTransaction s node rt params args =
         ⟨(s.accessStep node params (s.gasStep node params
             (s.feeStep node params
               (s.baseTx params sender (s.nonceOf node sender).1
                 (params.data.getD [] ++ args))).1)).1,
          (s.nonceOf node sender).2.1,
          { params with data := some (params.data.getD [] ++ args) },
          (s.nonceOf node sender).2.2 ++
            (s.feeStep node params
               (s.baseTx params sender (s.nonceOf node sender).1
                 (params.data.getD [] ++ args))).2 ++
            (s.accessStep node params (s.gasStep node params
               (s.feeStep node params
                 (s.baseTx params sender (s.nonceOf node sender).1
                   (params.data.getD [] ++ args))).1)).2⟩) := by
  unfold Testing.Chain.buildTransaction
  repeat' split
  all_goals first
    | exact Or.inl ⟨_, rfl⟩
    | (rename_i e heq
       rw [testing_resolveSender_error s rt params e heq]
       exact Or.inl ⟨_, rfl⟩)
    | (rename_i sender heq; exact Or.inr ⟨sender, heq, rfl⟩)

/-- Every deployment build is either the fee-conflict exit, the missing-sender
exit, or the main path through `baseTx`/`feeStep`/`gasStep`. -/
theorem deployment_build_cases (s : Deployment.Chain) (node : Node)
    (rt : RequestType) (params : TxParams) (args : List Nat) :
    (∃ msg, Deployment.Chain.buildTransaction s node rt params args =
        ⟨.error (.valueError msg), params, []⟩) ∨
    (∃ sender, s.resolveSender rt params = .ok sender ∧
       Deployment.Chain.buildTransaction s node rt params args =
         ⟨(Deployment.Chain.gasStep node params
             (s.feeStep node params
               (s.baseTx node params sender (params.data.getD [] ++ args))).1).1,
          { params with data := some (params.data.getD [] ++ args) },
          [RpcCall.getTransactionCount sender] ++
            (s.feeStep node params
               (s.baseTx node params sender (params.data.getD [] ++ args))).2 ++
            (Deployment.Chain.gasStep node params
               (s.feeStep node params
                 (s.baseTx node params sender (params.data.getD [] ++ args))).1).2⟩) := by
  unfold Deployment.Chain.buildTransaction
  repeat' split
  all_goals first
    | exact Or.inl ⟨_, rfl⟩
    | (rename_i e heq
       rw [deployment_resolveSender_error s rt params e heq]
       exact Or.inl ⟨_, rfl⟩)
    | (rename_i sender heq; exact Or.inr ⟨sender, heq, rfl⟩)

/-! ## Stage lemmas -/
theorem accessListPre_nonce (t : Tx) (params : TxParams) :
    (Testing.accessListPre t params).nonce = t.nonce := by
  unfold Testing.accessListPre
  repeat' split
  all_goals rfl

theorem accessListPre_gas (t : Tx) (params : TxParams) :
    (Testing.accessListPre t params).gas = t.gas := by
  unfold Testing.accessListPre
  repeat' split
  all_goals rfl

theorem testing_feeStep_nonce (s : Testing.Chain) (node : Node)
    (params : TxParams) (t0 : Tx) :
    ((s.feeStep node params t0).1).nonce = t0.nonce := by
  unfold Testing.Chain.feeStep
  repeat' split
  all_goals simp [accessListPre_nonce]

theorem testing_feeStep_gas (s : Testing.Chain) (node : Node)
    (params : TxParams) (t0 : Tx) :
    ((s.feeStep node params t0).1).gas = t0.gas := by
  unfold Testing.Chain.feeStep
  repeat' split
  all_goals simp [accessListPre_gas]

theorem testing_gasStep_ok_nonce (s : Testing.Chain) (node : Node)
    (params : TxParams) (t1 t2 : Tx)
    (h : (s.gasStep node params t1).1 = .ok t2) : t2.nonce = t1.nonce := by
  unfold Testing.Chain.gasStep at h
  repeat' split at h
  all_goals simp at h
  all_goals (subst h; rfl)

theorem deployment_feeStep_nonce (s : Deployment.Chain) (node : Node)
    (params : TxParams) (t0 : Tx) :
    ((s.feeStep node params t0).1).nonce = t0.nonce := by
  unfold Deployment.Chain.feeStep
  repeat' split
  all_goals rfl

theorem deployment_gasStep_ok_nonce (node : Node) (params : TxParams)
    (t1 t2 : Tx) (h : (Deployment.Chain.gasStep node params t1).1 = .ok t2) :
    t2.nonce = t1.nonce := by
  unfold Deployment.Chain.gasStep at h
  repeat' split at h
  all_goals simp at h
  all_goals (subst h; rfl)

theorem testing_accessStep_ok_nonce (s : Testing.Chain) (node : Node)
    (params : TxParams) (go : Except Err Tx × List RpcCall) (t3 : Tx)
    (h : (s.accessStep node params go).1 = .ok t3) :
    ∃ t2, go.1 = .ok t2 ∧ t3.nonce = t2.nonce := by
  unfold Testing.Chain.accessStep at h
  split at h
  · simp at h
  · rename_i tx2 heq
    refine ⟨tx2, heq, ?_⟩
    split at h
    · split at h
      · simp at h
      · simp at h
        split at h
        all_goals (subst h; rfl)
    · simp at h
      subst h; rfl

theorem testing_nonceOf_lookup (s : Testing.Chain) (node : Node) (sender : String) :
    listLookup (s.nonceOf node sender).2.1 sender = some (s.nonceOf node sender).1 := by
  unfold Testing.Chain.nonceOf
  split
  · simp_all
  · simp [listLookup_insert]

theorem testing_nonceOf_hit (s : Testing.Chain) (node : Node) (sender : String)
    (v : Nat) (h : listLookup s.nonces sender = some v) :
    s.nonceOf node sender = (v, s.nonces, []) := by
  unfold Testing.Chain.nonceOf
  rw [h]

/-- On a successful testing build, the transaction's nonce is exactly the
value delivered by the nonce cache (`nonceOf`), and the cache afterwards is
the one `nonceOf` produced. -/
theorem testing_build_ok_nonce (s : Testing.Chain) (node : Node)
    (rt : RequestType) (params : TxParams) (args : List Nat) (tx : Tx)
    (h : (Testing.Chain.buildTransaction s node rt params args).result = .ok tx) :
    ∃ sender, s.resolveSender rt params = .ok sender ∧
      tx.nonce = (s.nonceOf node sender).1 ∧
      (Testing.Chain.buildTransaction s node rt params args).nonces =
        (s.nonceOf node sender).2.1 := by
  rcases testing_build_cases s node rt params args with ⟨e, he⟩ | ⟨sender, hs, he⟩
  · rw [he] at h; cases h
  · rw [he] at h
    simp only [] at h
    obtain ⟨t2, hgo, hn3⟩ := testing_accessStep_ok_nonce s node params _ tx h
    have hn2 := testing_gasStep_ok_nonce s node params _ t2 hgo
    have hn1 := testing_feeStep_nonce s node params
      (s.baseTx params sender (s.nonceOf node sender).1 (params.data.getD [] ++ args))
    refine ⟨sender, hs, ?_, by rw [he]⟩
    rw [hn3, hn2, hn1]
    rfl

/-- On a successful deployment build, the transaction's nonce is the fresh
node query `accountNonce`, and the `get_transaction_count` round-trip is in
the trace. -/
theorem deployment_build_ok_nonce (s : Deployment.Chain) (node : Node)
    (rt : RequestType) (params : TxParams) (args : List Nat) (tx : Tx)
    (h : (Deployment.Chain.buildTransaction s node rt params args).result = .ok tx) :
    ∃ sender, s.resolveSender rt params = .ok sender ∧
      tx.nonce = accountNonce node sender ∧
      RpcCall.getTransactionCount sender ∈
        (Deployment.Chain.buildTransaction s node rt params args).trace := by
  rcases deployment_build_cases s node rt params args with ⟨e, he⟩ | ⟨sender, hs, he⟩
  · rw [he] at h; cases h
  · rw [he] at h
    simp only [] at h
    have hn2 := deployment_gasStep_ok_nonce node params _ tx h
    have hn1 := deployment_feeStep_nonce s node params
      (s.baseTx node params sender (params.data.getD [] ++ args))
    refine ⟨sender, hs, ?_, by rw [he]; simp⟩
    rw [hn2, hn1]
    rfl

/-! ## C5 — nonce sourcing -/
/-- C5: in a testing session (node-managed signing) the built nonce comes
from the session's nonce cache, populated from the node only on first use:
two consecutive builds for the same request without an intervening submission
carry the same nonce, and a build after a successful submission (which
advances the cache by one, see `afterSubmission`) carries `nonce + 1`.  In a
deployment session (local signing) the nonce is freshly queried from the node
on every build (`accountNonce`, with its `get_transaction_count` round-trip
in the trace) and `_update_nonce` is a no-op. -/
theorem nonce_cache_semantics :
    (∀ (s : Testing.Chain) (node : Node) (rt : RequestType) (params : TxParams)
       (args : List Nat) (tx1 tx2 : Tx),
       (Testing.Chain.buildTransaction s node rt params args).result = .ok tx1 →
       (Testing.Chain.buildTransaction
          { s with nonces :=
              (Testing.Chain.buildTransaction s node rt params args).nonces }
          node rt params args).result = .ok tx2 →
       tx2.nonce = tx1.nonce) ∧
    (∀ (s : Testing.Chain) (node : Node) (rt : RequestType) (params : TxParams)
       (args : List Nat) (sender : String) (tx1 tx2 : Tx),
       (Testing.Chain.buildTransaction s node rt params args).result = .ok tx1 →
       s.resolveSender rt params = .ok sender →
       (Testing.Chain.buildTransaction
          (afterSubmission
            { s with nonces :=
                (Testing.Chain.buildTransaction s node rt params args).nonces }
            sender tx1.nonce)
          node rt params args).result = .ok tx2 →
       tx2.nonce = tx1.nonce + 1) ∧
    (∀ (s : Deployment.Chain) (node : Node) (rt : RequestType) (params : TxParams)
       (args : List Nat) (tx : Tx),
       (Deployment.Chain.buildTransaction s node rt params args).result = .ok tx →
       ∃ sender, s.resolveSender rt params = .ok sender ∧
         tx.nonce = accountNonce node sender ∧
         RpcCall.getTransactionCount sender ∈
           (Deployment.Chain.buildTransaction s node rt params args).trace) ∧
    (∀ (s : Deployment.Chain) (a : String) (n : Nat),
       Deployment.Chain.updateNonce s a n = s) := by
  refine ⟨?_, ?_, ?_, fun s a n => rfl⟩
  · intro s node rt params args tx1 tx2 h1 h2
    obtain ⟨a, hs, hn1, hc1⟩ := testing_build_ok_nonce s node rt params args tx1 h1
    obtain ⟨a2, hs2, hn2, -⟩ := testing_build_ok_nonce _ node rt params args tx2 h2
    have hinv : Testing.Chain.resolveSender
        { s with nonces :=
            (Testing.Chain.buildTransaction s node rt params args).nonces }
        rt params = s.resolveSender rt params := rfl
    rw [hinv, hs] at hs2
    have ha : a2 = a := (Except.ok.inj hs2).symm
    rw [ha] at hn2
    have hlook : listLookup
        ({ s with nonces :=
            (Testing.Chain.buildTransaction s node rt params args).nonces } :
          Testing.Chain).nonces a = some ((s.nonceOf node a).1) := by
      show listLookup (Testing.Chain.buildTransaction s node rt params args).nonces a =
        some ((s.nonceOf node a).1)
      rw [hc1]
      exact testing_nonceOf_lookup s node a
    rw [testing_nonceOf_hit _ node a _ hlook] at hn2
    exact hn2.trans hn1.symm
  · intro s node rt params args sender tx1 tx2 h1 hs h2
    obtain ⟨a2, hs2, hn2, -⟩ := testing_build_ok_nonce _ node rt params args tx2 h2
    have hinv : Testing.Chain.resolveSender
        (afterSubmission
          { s with nonces :=
              (Testing.Chain.buildTransaction s node rt params args).nonces }
          sender tx1.nonce)
        rt params = s.resolveSender rt params := rfl
    rw [hinv, hs] at hs2
    have ha : a2 = sender := (Except.ok.inj hs2).symm
    rw [ha] at hn2
    have hlook : listLookup
        (afterSubmission
          { s with nonces :=
              (Testing.Chain.buildTransaction s node rt params args).nonces }
          sender tx1.nonce).nonces sender = some (tx1.nonce + 1) :=
      listLookup_insert _ _ _
    rw [testing_nonceOf_hit _ node sender _ hlook] at hn2
    exact hn2
  · intro s node rt params args tx h
    exact deployment_build_ok_nonce s node rt params args tx h

theorem nonce_cache_semantics_witness :
    sampleTx2.nonce = sampleTx1.nonce ∧
    sampleTx3.nonce = sampleTx1.nonce + 1 ∧
    (∃ sender, sampleChainD.resolveSender .tx {} = .ok sender ∧
       sampleTxD.nonce = accountNonce sampleNode sender ∧
       RpcCall.getTransactionCount sender ∈
         (Deployment.Chain.buildTransaction sampleChainD sampleNode .tx {} []).trace) ∧
    Deployment.Chain.updateNonce sampleChainD "0xa" 9 = sampleChainD :=
  ⟨nonce_cache_semantics.1 sampleChainT sampleNode .tx {} [] sampleTx1 sampleTx2 rfl rfl,
   nonce_cache_semantics.2.1 sampleChainT sampleNode .tx {} [] "0xb" sampleTx1 sampleTx3
     rfl rfl rfl,
   nonce_cache_semantics.2.2.1 sampleChainD sampleNode .tx {} [] sampleTxD rfl,
   nonce_cache_semantics.2.2.2 sampleChainD "0xa" 9⟩

/-! ## Gas-policy stage lemmas (for C6) -/
theorem testing_gasStep_none (s : Testing.Chain) (node : Node)
    (params : TxParams) (t1 : Tx) (h : params.gas = none) :
    s.gasStep node params t1 = (.ok { t1 with gas := some s.blockGasLimit }, []) := by
  unfold Testing.Chain.gasStep
  rw [h]

theorem testing_gasStep_int (s : Testing.Chain) (node : Node)
    (params : TxParams) (t1 : Tx) (n : Nat) (h : params.gas = some (.int n)) :
    s.gasStep node params t1 = (.ok { t1 with gas := some n }, []) := by
  unfold Testing.Chain.gasStep
  rw [h]

theorem testing_gasStep_auto (s : Testing.Chain) (node : Node)
    (params : TxParams) (t1 : Tx) (h : params.gas = some (.str "auto")) :
    RpcCall.estimateGas t1 ∈ (s.gasStep node params t1).2 := by
  unfold Testing.Chain.gasStep
  rw [h]
  cases he : node.estimateGas t1 <;> simp [he]

theorem testing_gasStep_invalid (s : Testing.Chain) (node : Node)
    (params : TxParams) (t1 : Tx) (g : String) (h : params.gas = some (.str g))
    (hg : g ≠ "auto") :
    s.gasStep node params t1 =
      (.error (.valueError ("Invalid gas value: " ++ g)), []) := by
  unfold Testing.Chain.gasStep
  rw [h]
  simp [hg]

theorem deployment_gasStep_int (node : Node) (params : TxParams) (t1 : Tx)
    (n : Nat) (h : params.gas = some (.int n)) :
    Deployment.Chain.gasStep node params t1 = (.ok { t1 with gas := some n }, []) := by
  unfold Deployment.Chain.gasStep
  rw [h]

theorem deployment_gasStep_estimate (node : Node) (params : TxParams) (t1 : Tx)
    (h : params.gas = none ∨ params.gas = some (.str "auto")) :
    RpcCall.estimateGas t1 ∈ (Deployment.Chain.gasStep node params t1).2 ∧
    (∀ t2, (Deployment.Chain.gasStep node params t1).1 = .ok t2 →
       ∃ n, node.estimateGas t1 = some n ∧ t2.gas = some n) ∧
    (node.estimateGas t1 = none →
       (Deployment.Chain.gasStep node params t1).1 = .error .jsonRpcError) := by
  unfold Deployment.Chain.gasStep
  rcases h with h | h <;> rw [h] <;>
    cases he : node.estimateGas t1 <;> simp [he]

theorem deployment_gasStep_invalid (node : Node) (params : TxParams) (t1 : Tx)
    (g : String) (h : params.gas = some (.str g)) (hg : g ≠ "auto") :
    Deployment.Chain.gasStep node params t1 =
      (.error (.valueError ("Invalid gas value: " ++ g)), []) := by
  unfold Deployment.Chain.gasStep
  rw [h]
  simp [hg]

theorem testing_nonceOf_trace (s : Testing.Chain) (node : Node) (a : String) :
    ∀ c ∈ (s.nonceOf node a).2.2, c = RpcCall.getTransactionCount a := by
  unfold Testing.Chain.nonceOf
  split
  all_goals intro c hc
  all_goals simp_all

theorem testing_feeStep_trace (s : Testing.Chain) (node : Node)
    (params : TxParams) (t0 : Tx) :
    ∀ c ∈ (s.feeStep node params t0).2, c = RpcCall.getBlockPending := by
  unfold Testing.Chain.feeStep
  repeat' split
  all_goals intro c hc
  all_goals simp_all

theorem testing_accessStep_trace (s : Testing.Chain) (node : Node)
    (params : TxParams) (go : Except Err Tx × List RpcCall) :
    ∀ c ∈ (s.accessStep node params go).2,
      c ∈ go.2 ∨ ∃ t, c = RpcCall.createAccessList t := by
  unfold Testing.Chain.accessStep
  repeat' split
  all_goals intro c hc
  all_goals first
    | exact Or.inl hc
    | (rcases List.mem_append.mp hc with hc2 | hc2
       · exact Or.inl hc2
       · simp at hc2
         exact Or.inr ⟨_, hc2⟩)

theorem testing_accessStep_trace_sub (s : Testing.Chain) (node : Node)
    (params : TxParams) (go : Except Err Tx × List RpcCall) :
    ∀ c ∈ go.2, c ∈ (s.accessStep node params go).2 := by
  unfold Testing.Chain.accessStep
  repeat' split
  all_goals intro c hc
  all_goals simp [hc]

theorem testing_accessStep_ok_gas (s : Testing.Chain) (node : Node)
    (params : TxParams) (go : Except Err Tx × List RpcCall) (t3 : Tx)
    (hga : params.gas ≠ some (.str "auto"))
    (h : (s.accessStep node params go).1 = .ok t3) :
    ∃ t2, go.1 = .ok t2 ∧ t3.gas = t2.gas := by
  unfold Testing.Chain.accessStep at h
  split at h
  · simp at h
  · rename_i tx2 heq
    refine ⟨tx2, heq, ?_⟩
    split at h
    · split at h
      · simp at h
      · simp only [if_neg hga] at h
        simp at h
        subst h; rfl
    · simp at h
      subst h; rfl

/-! ## C6 — gas determination policy -/
/-- C6: the `gas` field policy.  An explicit integer is used verbatim (both
chains); the literal `"auto"` triggers a gas-estimation round-trip (both
chains); with gas entirely unset the testing chain defaults to the session's
cached block gas limit and performs no estimation round-trip, while the
deployment chain performs the estimation round-trip — failing with the
configuration `ValueError` when it cannot resolve a sender to estimate for —
and takes the estimate as the gas; any other gas value raises a
configuration `ValueError` (both chains). -/
theorem gas_policy :
    (∀ (s : Testing.Chain) (node : Node) (rt : RequestType) (params : TxParams)
       (args : List Nat) (tx : Tx),
       params.gas = none →
       (Testing.Chain.buildTransaction s node rt params args).result = .ok tx →
       tx.gas = some s.blockGasLimit ∧
       ∀ t, RpcCall.estimateGas t ∉
         (Testing.Chain.buildTransaction s node rt params args).trace) ∧
    (∀ (s : Testing.Chain) (node : Node) (rt : RequestType) (params : TxParams)
       (args : List Nat) (n : Nat) (tx : Tx),
       params.gas = some (.int n) →
       (Testing.Chain.buildTransaction s node rt params args).result = .ok tx →
       tx.gas = some n) ∧
    (∀ (s : Testing.Chain) (node : Node) (rt : RequestType) (params : TxParams)
       (args : List Nat) (tx : Tx),
       params.gas = some (.str "auto") →
       (Testing.Chain.buildTransaction s node rt params args).result = .ok tx →
       ∃ t, RpcCall.estimateGas t ∈
         (Testing.Chain.buildTransaction s node rt params args).trace) ∧
    (∀ (s : Testing.Chain) (node : Node) (rt : RequestType) (params : TxParams)
       (args : List Nat) (g : String),
       params.gas = some (.str g) → g ≠ "auto" →
       ∃ msg, (Testing.Chain.buildTransaction s node rt params args).result =
         .error (.valueError msg)) ∧
    (∀ (s : Deployment.Chain) (node : Node) (rt : RequestType) (params : TxParams)
       (args : List Nat) (n : Nat) (tx : Tx),
       params.gas = some (.int n) →
       (Deployment.Chain.buildTransaction s node rt params args).result = .ok tx →
       tx.gas = some n) ∧
    (∀ (s : Deployment.Chain) (node : Node) (rt : RequestType) (params : TxParams)
       (args : List Nat) (tx : Tx),
       (params.gas = none ∨ params.gas = some (.str "auto")) →
       (Deployment.Chain.buildTransaction s node rt params args).result = .ok tx →
       ∃ t nEst, node.estimateGas t = some nEst ∧ tx.gas = some nEst ∧
         RpcCall.estimateGas t ∈
           (Deployment.Chain.buildTransaction s node rt params args).trace) ∧
    (∀ (s : Deployment.Chain) (node : Node) (rt : RequestType) (params : TxParams)
       (args : List Nat) (e : Err),
       params.gas = none →
       ¬ (params.gasPrice.isSome ∧ (params.maxFeePerGas.isSome ∨
            params.maxPriorityFeePerGas.isSome)) →
       s.resolveSender rt params = .error e →
       Deployment.Chain.buildTransaction s node rt params args =
         ⟨.error (.valueError "No from_ account specified and no default account set"),
          params, []⟩) ∧
    (∀ (s : Deployment.Chain) (node : Node) (rt : RequestType) (params : TxParams)
       (args : List Nat) (g : String),
       params.gas = some (.str g) → g ≠ "auto" →
       ∃ msg, (Deployment.Chain.buildTransaction s node rt params args).result =
         .error (.valueError msg)) := by
  refine ⟨?_, ?_, ?_, ?_, ?_, ?_, ?_, ?_⟩
  · intro s node rt params args tx hgas h
    rcases testing_build_cases s node rt params args with ⟨msg, he⟩ | ⟨sender, hs, he⟩
    · rw [he] at h; cases h
    · constructor
      · rw [he] at h
        simp only [] at h
        obtain ⟨t2, hgo, hg3⟩ :=
          testing_accessStep_ok_gas s node params _ tx (by simp [hgas]) h
        rw [testing_gasStep_none s node params _ hgas] at hgo
        simp at hgo
        rw [hg3, ← hgo]
      · intro t ht
        rw [he] at ht
        simp only [] at ht
        rcases List.mem_append.mp ht with ht1 | ht2
        · rcases List.mem_append.mp ht1 with hta | htb
          · have := testing_nonceOf_trace s node sender _ hta
            simp at this
          · have := testing_feeStep_trace s node params _ _ htb
            simp at this
        · rcases testing_accessStep_trace s node params _ _ ht2 with hin | ⟨t', ht'⟩
          · rw [testing_gasStep_none s node params _ hgas] at hin
            simp at hin
          · simp at ht'
  · intro s node rt params args n tx hgas h
    rcases testing_build_cases s node rt params args with ⟨msg, he⟩ | ⟨sender, hs, he⟩
    · rw [he] at h; cases h
    · rw [he] at h
      simp only [] at h
      obtain ⟨t2, hgo, hg3⟩ :=
        testing_accessStep_ok_gas s node params _ tx (by simp [hgas]) h
      rw [testing_gasStep_int s node params _ n hgas] at hgo
      simp at hgo
      rw [hg3, ← hgo]
  · intro s node rt params args tx hgas h
    rcases testing_build_cases s node rt params args with ⟨msg, he⟩ | ⟨sender, hs, he⟩
    · rw [he] at h; cases h
    · refine ⟨(s.feeStep node params
          (s.baseTx params sender (s.nonceOf node sender).1
            (params.data.getD [] ++ args))).1, ?_⟩
      rw [he]
      simp only []
      apply List.mem_append.mpr
      right
      exact testing_accessStep_trace_sub s node params _ _
        (testing_gasStep_auto s node params _ hgas)
  · intro s node rt params args g hgas hne
    rcases testing_build_cases s node rt params args with ⟨msg, he⟩ | ⟨sender, hs, he⟩
    · exact ⟨msg, by rw [he]⟩
    · refine ⟨"Invalid gas value: " ++ g, ?_⟩
      rw [he]
      simp only []
      rw [testing_gasStep_invalid s node params _ g hgas hne]
      exact testing_accessStep_error s node params _ _
  · intro s node rt params args n tx hgas h
    rcases deployment_build_cases s node rt params args with ⟨msg, he⟩ | ⟨sender, hs, he⟩
    · rw [he] at h; cases h
    · rw [he] at h
      simp only [] at h
      rw [deployment_gasStep_int node params _ n hgas] at h
      simp at h
      rw [← h]
  · intro s node rt params args tx hga h
    rcases deployment_build_cases s node rt params args with ⟨msg, he⟩ | ⟨sender, hs, he⟩
    · rw [he] at h; cases h
    · rw [he] at h
      simp only [] at h
      obtain ⟨hmem, hok, -⟩ := deployment_gasStep_estimate node params _ hga
      obtain ⟨nE, hE, hgasE⟩ := hok tx h
      refine ⟨_, nE, hE, hgasE, ?_⟩
      rw [he]
      simp only []
      exact List.mem_append.mpr (Or.inr hmem)
  · intro s node rt params args e hgas hconf hsender
    unfold Deployment.Chain.buildTransaction
    rw [if_neg hconf, hsender, deployment_resolveSender_error s rt params e hsender]
  · intro s node rt params args g hgas hne
    rcases deployment_build_cases s node rt params args with ⟨msg, he⟩ | ⟨sender, hs, he⟩
    · exact ⟨msg, by rw [he]⟩
    · refine ⟨"Invalid gas value: " ++ g, ?_⟩
      rw [he]
      simp only []
      rw [deployment_gasStep_invalid node params _ g hgas hne]

theorem gas_policy_witness :
    sampleTx1.gas = some sampleChainT.blockGasLimit ∧
    RpcCall.estimateGas sampleTx1 ∉
      (Testing.Chain.buildTransaction sampleChainT sampleNode .tx {} []).trace ∧
    ({ sampleTx1 with gas := some 555 } : Tx).gas = some 555 ∧
    (∃ t, RpcCall.estimateGas t ∈
      (Testing.Chain.buildTransaction sampleChainT sampleNode .tx
        { gas := some (.str "auto") } []).trace) ∧
    (∃ msg, (Testing.Chain.buildTransaction sampleChainT sampleNode .tx
        { gas := some (.str "x") } []).result = .error (.valueError msg)) ∧
    ({ sampleTxD with gas := some 777 } : Tx).gas = some 777 ∧
    (∃ t nEst, sampleNode.estimateGas t = some nEst ∧ sampleTxD.gas = some nEst ∧
       RpcCall.estimateGas t ∈
         (Deployment.Chain.buildTransaction sampleChainD sampleNode .tx {} []).trace) ∧
    Deployment.Chain.buildTransaction emptyChainD sampleNode .tx {} [] =
      ⟨.error (.valueError "No from_ account specified and no default account set"),
       {}, []⟩ ∧
    (∃ msg, (Deployment.Chain.buildTransaction sampleChainD sampleNode .tx
        { gas := some (.str "x") } []).result = .error (.valueError msg)) := by
  obtain ⟨hA, hB⟩ := gas_policy.1 sampleChainT sampleNode .tx {} [] sampleTx1 rfl rfl
  refine ⟨hA, hB sampleTx1, ?_, ?_, ?_, ?_, ?_, ?_, ?_⟩
  · exact gas_policy.2.1 sampleChainT sampleNode .tx { gas := some (.int 555) } []
      555 { sampleTx1 with gas := some 555 } rfl rfl
  · exact gas_policy.2.2.1 sampleChainT sampleNode .tx { gas := some (.str "auto") } []
      { sampleTx1 with gas := some 21000 } rfl rfl
  · exact gas_policy.2.2.2.1 sampleChainT sampleNode .tx { gas := some (.str "x") } []
      "x" rfl (by decide)
  · exact gas_policy.2.2.2.2.1 sampleChainD sampleNode .tx { gas := some (.int 777) } []
      777 { sampleTxD with gas := some 777 } rfl rfl
  · exact gas_policy.2.2.2.2.2.1 sampleChainD sampleNode .tx {} [] sampleTxD
      (Or.inl rfl) rfl
  · exact gas_policy.2.2.2.2.2.2.1 emptyChainD sampleNode .tx {} [] _ rfl
      (by decide) rfl
  · exact gas_policy.2.2.2.2.2.2.2 sampleChainD sampleNode .tx { gas := some (.str "x") } []
      "x" rfl (by decide)

/-! ## C7 — access-list auto-generation -/
theorem testing_gasStep_ok_accessList (s : Testing.Chain) (node : Node)
    (params : TxParams) (t1 t2 : Tx)
    (h : (s.gasStep node params t1).1 = .ok t2) : t2.accessList = t1.accessList := by
  unfold Testing.Chain.gasStep at h
  repeat' split at h
  all_goals simp at h
  all_goals (subst h; rfl)

theorem deployment_gasStep_ok_accessList (node : Node) (params : TxParams)
    (t1 t2 : Tx) (h : (Deployment.Chain.gasStep node params t1).1 = .ok t2) :
    t2.accessList = t1.accessList := by
  unfold Deployment.Chain.gasStep at h
  repeat' split at h
  all_goals simp at h
  all_goals (subst h; rfl)

theorem accessListPre_literal (t : Tx) (params : TxParams) (v : AccessListParam)
    (hal : params.accessList = some v) (hv : v ≠ .str "auto") :
    (Testing.accessListPre t params).accessList = some v := by
  unfold Testing.accessListPre
  rw [hal]
  simp [hv]

theorem testing_feeStep_accessList_literal (s : Testing.Chain) (node : Node)
    (params : TxParams) (t0 : Tx) (v : AccessListParam)
    (htype : params.type.getD s.txType = 1 ∨ params.type.getD s.txType = 2)
    (hal : params.accessList = some v) (hv : v ≠ .str "auto") :
    ((s.feeStep node params t0).1).accessList = some v := by
  unfold Testing.Chain.feeStep
  repeat' split
  all_goals first
    | exact accessListPre_literal _ params v hal hv
    | (rcases htype with h | h <;> simp_all)

theorem deployment_feeStep_accessList (s : Deployment.Chain) (node : Node)
    (params : TxParams) (t0 : Tx)
    (htype : Deployment.txTypeOf params s.txType = 1 ∨
      Deployment.txTypeOf params s.txType = 2) :
    ((s.feeStep node params t0).1).accessList =
      some (params.accessList.getD (.items [])) := by
  unfold Deployment.Chain.feeStep
  repeat' split
  all_goals first
    | rfl
    | (rcases htype with h | h <;> simp_all)

theorem deployment_feeStep_trace (s : Deployment.Chain) (node : Node)
    (params : TxParams) (t0 : Tx) :
    ∀ c ∈ (s.feeStep node params t0).2,
      c = RpcCall.getGasPrice ∨ c = RpcCall.getMaxPriorityFeePerGas ∨
      c = RpcCall.getBlockPending := by
  unfold Deployment.Chain.feeStep
  repeat' split
  all_goals intro c hc
  all_goals simp at hc
  all_goals first
    | (subst hc; simp)
    | (rcases hc with rfl | rfl <;> simp)

theorem deployment_gasStep_trace (node : Node) (params : TxParams) (t1 : Tx) :
    ∀ c ∈ (Deployment.Chain.gasStep node params t1).2,
      c = RpcCall.estimateGas t1 := by
  unfold Deployment.Chain.gasStep
  repeat' split
  all_goals intro c hc
  all_goals simp_all

theorem testing_accessStep_noauto_accessList (s : Testing.Chain) (node : Node)
    (params : TxParams) (go : Except Err Tx × List RpcCall) (t3 : Tx)
    (hal : params.accessList ≠ some (.str "auto"))
    (h : (s.accessStep node params go).1 = .ok t3) :
    ∃ t2, go.1 = .ok t2 ∧ t3.accessList = t2.accessList := by
  unfold Testing.Chain.accessStep at h
  split at h
  · simp at h
  · rename_i tx2 heq
    refine ⟨tx2, heq, ?_⟩
    split at h
    · rename_i hcond
      exact absurd hcond.2 hal
    · simp at h
      subst h; rfl

theorem testing_accessStep_auto_ok (s : Testing.Chain) (node : Node)
    (params : TxParams) (go : Except Err Tx × List RpcCall) (t3 : Tx)
    (hcond : (params.type.getD s.txType = 1 ∨ params.type.getD s.txType = 2) ∧
      params.accessList = some (.str "auto"))
    (h : (s.accessStep node params go).1 = .ok t3) :
    ∃ tx2 al gasUsed, go.1 = .ok tx2 ∧
      node.createAccessList tx2 = some (al, gasUsed) ∧
      RpcCall.createAccessList tx2 ∈ (s.accessStep node params go).2 ∧
      t3.accessList = some (.items al) ∧
      (params.gas = some (.str "auto") → t3.gas = some gasUsed) := by
  rcases hgo : go.1 with e | tx2
  · rw [Testing.Chain.accessStep] at h
    rw [hgo] at h
    simp at h
  · rw [Testing.Chain.accessStep] at h ⊢
    rw [hgo] at h ⊢
    simp only [] at h ⊢
    rw [if_pos hcond] at h ⊢
    rcases hcl : node.createAccessList tx2 with _ | ⟨al, gasUsed⟩
    · rw [hcl] at h
      simp at h
    · refine ⟨tx2, al, gasUsed, rfl, hcl, by simp, ?_, ?_⟩
      · rw [hcl] at h
        by_cases hga : params.gas = some (GasParam.str "auto")
        · simp [hga] at h
          subst h
          rfl
        · simp [hga] at h
          subst h
          rfl
      · intro hga
        rw [hcl] at h
        simp [hga] at h
        subst h
        rfl

/-- C7 counterexample: on the deployment chain, a request with
`accessList: "auto"` (inferred type 1) copies the literal string `"auto"`
verbatim into the built transaction's `accessList` and the build performs no
create-access-list round-trip — the trace holds only the nonce query, the
gas-price query and the gas estimation. -/
theorem accessList_auto_deployment_cex :
    Deployment.Chain.buildTransaction sampleChainD sampleNode .tx
        { accessList := some (.str "auto") } [] =
      ⟨.ok { nonce := 5, fromAddr := "0xb", value := 0, data := []
             type := some 1, gasPrice := some 7
             accessList := some (.str "auto"), chainId := some 5
             gas := some 21000 },
       { accessList := some (.str "auto"), data := some [] },
       [RpcCall.getTransactionCount "0xb", RpcCall.getGasPrice,
        RpcCall.estimateGas
          { nonce := 5, fromAddr := "0xb", value := 0, data := []
            type := some 1, gasPrice := some 7
            accessList := some (.str "auto"), chainId := some 5 }]⟩ := by
  rfl

/-- C7 (amended): on the testing chain, a type-1/2 request with
`accessList: "auto"` triggers the create-access-list round-trip against the
otherwise-fully-built transaction; its response sets the access list and,
when gas was also `"auto"`, the final gas is that same response's `gasUsed`;
a literal access-list value is passed through unchanged.  The deployment
chain instead copies the request's access-list value verbatim — the literal
`"auto"` included — and never performs a create-access-list round-trip. -/
theorem accessList_auto_amended :
    (∀ (s : Testing.Chain) (node : Node) (rt : RequestType) (params : TxParams)
       (args : List Nat) (tx : Tx),
       (params.type.getD s.txType = 1 ∨ params.type.getD s.txType = 2) →
       params.accessList = some (.str "auto") →
       (Testing.Chain.buildTransaction s node rt params args).result = .ok tx →
       ∃ tx2 al gasUsed,
         node.createAccessList tx2 = some (al, gasUsed) ∧
         RpcCall.createAccessList tx2 ∈
           (Testing.Chain.buildTransaction s node rt params args).trace ∧
         tx.accessList = some (.items al) ∧
         (params.gas = some (.str "auto") → tx.gas = some gasUsed)) ∧
    (∀ (s : Testing.Chain) (node : Node) (rt : RequestType) (params : TxParams)
       (args : List Nat) (v : AccessListParam) (tx : Tx),
       params.accessList = some v → v ≠ .str "auto" →
       (params.type.getD s.txType = 1 ∨ params.type.getD s.txType = 2) →
       (Testing.Chain.buildTransaction s node rt params args).result = .ok tx →
       tx.accessList = some v) ∧
    (∀ (s : Deployment.Chain) (node : Node) (rt : RequestType) (params : TxParams)
       (args : List Nat) (tx : Tx),
       (Deployment.txTypeOf params s.txType = 1 ∨
         Deployment.txTypeOf params s.txType = 2) →
       (Deployment.Chain.buildTransaction s node rt params args).result = .ok tx →
       tx.accessList = some (params.accessList.getD (.items [])) ∧
       ∀ t, RpcCall.createAccessList t ∉
         (Deployment.Chain.buildTransaction s node rt params args).trace) := by
  refine ⟨?_, ?_, ?_⟩
  · intro s node rt params args tx htype hal h
    rcases testing_build_cases s node rt params args with ⟨msg, he⟩ | ⟨sender, hs, he⟩
    · rw [he] at h; cases h
    · rw [he] at h
      simp only [] at h
      obtain ⟨tx2, al, gasUsed, hgo, hcl, hmem, hal3, hgas3⟩ :=
        testing_accessStep_auto_ok s node params _ tx ⟨htype, hal⟩ h
      refine ⟨tx2, al, gasUsed, hcl, ?_, hal3, hgas3⟩
      rw [he]
      simp only []
      exact List.mem_append.mpr (Or.inr hmem)
  · intro s node rt params args v tx hal hv htype h
    rcases testing_build_cases s node rt params args with ⟨msg, he⟩ | ⟨sender, hs, he⟩
    · rw [he] at h; cases h
    · rw [he] at h
      simp only [] at h
      have hial : params.accessList ≠ some (.str "auto") := by
        rw [hal]
        intro hx
        exact hv (by injection hx)
      obtain ⟨t2, hgo, heq3⟩ :=
        testing_accessStep_noauto_accessList s node params _ tx hial h
      have h2 := testing_gasStep_ok_accessList s node params _ t2 hgo
      have h1 := testing_feeStep_accessList_literal s node params
        (s.baseTx params sender (s.nonceOf node sender).1
          (params.data.getD [] ++ args)) v htype hal hv
      rw [heq3, h2, h1]
  · intro s node rt params args tx htype h
    rcases deployment_build_cases s node rt params args with ⟨msg, he⟩ | ⟨sender, hs, he⟩
    · rw [he] at h; cases h
    · rw [he] at h
      simp only [] at h
      have h2 := deployment_gasStep_ok_accessList node params _ tx h
      have h1 := deployment_feeStep_accessList s node params
        (s.baseTx node params sender (params.data.getD [] ++ args)) htype
      constructor
      · rw [h2, h1]
      · intro t ht
        rw [he] at ht
        simp only [] at ht
        rcases List.mem_append.mp ht with ht1 | ht2
        · rcases List.mem_append.mp ht1 with hta | htb
          · simp at hta
          · rcases deployment_feeStep_trace s node params _ _ htb with hx | hx | hx <;>
              simp at hx
        · have := deployment_gasStep_trace node params _ _ ht2
          simp at this

theorem accessList_auto_amended_witness :
    (∃ tx2 al gasUsed,
       sampleNode.createAccessList tx2 = some (al, gasUsed) ∧
       RpcCall.createAccessList tx2 ∈
         (Testing.Chain.buildTransaction sampleChainT sampleNode .tx pAutoT []).trace ∧
       sampleTxAuto.accessList = some (.items al) ∧
       (pAutoT.gas = some (.str "auto") → sampleTxAuto.gas = some gasUsed)) ∧
    sampleTxLit.accessList = some (.items [("0xd", [])]) ∧
    sampleTxDAuto.accessList = some (pAutoD.accessList.getD (.items [])) ∧
    RpcCall.createAccessList sampleTx1 ∉
      (Deployment.Chain.buildTransaction sampleChainD sampleNode .tx pAutoD []).trace := by
  have hD := accessList_auto_amended.2.2 sampleChainD sampleNode .tx pAutoD []
    sampleTxDAuto (Or.inl rfl) rfl
  exact ⟨accessList_auto_amended.1 sampleChainT sampleNode .tx pAutoT []
           sampleTxAuto (Or.inl rfl) rfl rfl,
         accessList_auto_amended.2.1 sampleChainT sampleNode .tx pLitT []
           (.items [("0xd", [])]) sampleTxLit rfl (by decide) (Or.inl rfl) rfl,
         hD.1, hD.2 sampleTx1⟩

theorem waitForTransaction_spec_witness :
    (sampleObs.statusPending 2 = false ∧
      ∀ u, u < 2 → sampleObs.statusPending u = true) ∧
    ((3 : Int) - 1 ≤ (sampleObs.latestNumber 5 : Int) - (sampleObs.blockNumber : Int) ∧
      ∃ t1, t1 ≤ 5 ∧ sampleObs.statusPending t1 = false ∧
        (∀ u, u < t1 → sampleObs.statusPending u = true) ∧
        (∀ u, t1 ≤ u → u < 5 →
          (sampleObs.latestNumber u : Int) - (sampleObs.blockNumber : Int) < 3 - 1)) :=
  ⟨waitForTransaction_spec.2.2.1 sampleObs 10 2 rfl,
   waitForTransaction_spec.2.2.2 sampleObs 3 10 5 (by omega) rfl⟩
